import Mathlib

/-!
Verification of the EVBot backend decision-tree navigation engine
(`src/server/index.js`): per-chat session state, message-bound recovery
state, YAML decision-tree node rendering with route/menu indirection
tokens, the safe `dt:*` callback protocol, fault selection (standard and
legacy callback encodings), and the per-chat callback rate-limit window.

Strings are modelled as `List Char` so that the JavaScript string
operations used by the callback dispatcher (`split(":")`, `startsWith`,
`endsWith`, `includes`, `toLowerCase`) can be given exact executable
counterparts with provable laws.  Mutable per-chat state is modelled as an
explicit `ChatState` record threaded through the handlers; the Telegram
transport (message send/edit, callback acknowledgement) is modelled by the
list of messages a handler emits.  Fault packs are reloaded from disk on
every access in the source; they are modelled as a read-only environment.
-/

/-- JavaScript strings, modelled as lists of characters. -/
abbrev Str := List Char

/-- JS truthiness of a string: falsy iff empty. -/
def truthy (s : Str) : Bool := !s.isEmpty

/-- JS truthiness of an optional string: `undefined` and `""` are falsy. -/
def otruthy : Option Str → Bool
  | none => false
  | some s => truthy s

/-- `s.toLowerCase()` (on the ASCII pack names used by the dispatcher). -/
def jsToLower (s : Str) : Str := s.map Char.toLower

/-- `cap` from the source: uppercase the first character, keep the rest. -/
def cap (s : Str) : Str :=
  match s with
  | [] => []
  | c :: r => c.toUpper :: r

/-- `s.split(sep)` for a single-character separator, with JS semantics:
`"".split(":") = [""]`, `"a:".split(":") = ["a", ""]`. -/
def jsSplit (sep : Char) : Str → List Str
  | [] => [[]]
  | c :: rest =>
    if c = sep then [] :: jsSplit sep rest
    else
      match jsSplit sep rest with
      | [] => [[c]]
      | h :: t => (c :: h) :: t

/-- `s.includes(n)`: some contiguous substring of `s` equals `n`. -/
def strIncludes (n : Str) : Str → Bool
  | [] => n.isPrefixOf []
  | c :: rest => n.isPrefixOf (c :: rest) || strIncludes n rest

/-- `s.startsWith(p)`. -/
def jsStartsWith (p s : Str) : Bool := p.isPrefixOf s

/-- `s.endsWith(p)`. -/
def jsEndsWith (p s : Str) : Bool := p.isSuffixOf s

/-- `escapeHtml` from the source: one sequential pass replacing the five
HTML-sensitive characters (`&` first, so later insertions keep their `&`,
exactly as the chained JS `.replace` calls behave). -/
def escapeHtml (s : Str) : Str :=
  s.flatMap fun c =>
    if c = '&' then "&amp;".toList
    else if c = '<' then "&lt;".toList
    else if c = '>' then "&gt;".toList
    else if c = '"' then "&quot;".toList
    else if c = '\'' then "&#039;".toList
    else [c]

/-- Digits of a decimal numeral, most significant first. -/
def digitsToNat (s : Str) : Nat :=
  s.foldl (fun acc c => acc * 10 + (c.toNat - '0'.toNat)) 0

/-- `Number(s)` restricted to the option-index strings the dispatcher
feeds it: the empty string is `0` (as in JS), an optionally negated run
of decimal digits is that integer, and everything else is `NaN`
(`none`).  Exotic numeric literal forms (fractions, exponents, hex) do
not occur in the verified claims and are mapped to `NaN`. -/
def jsNumberInt (s : Str) : Option Int :=
  match s with
  | [] => some 0
  | '-' :: ds =>
    if ds ≠ [] ∧ ds.all Char.isDigit then some (-(digitsToNat ds : Int)) else none
  | _ => if s.all Char.isDigit then some (digitsToNat s) else none

/-- `l[i]` for an integer index, JS array semantics: out of range
(including any negative index) is `undefined`. -/
def jsIndex {α : Type} (l : List α) (i : Int) : Option α :=
  match i with
  | Int.ofNat n => l.get? n
  | Int.negSucc _ => none

/- ===================== Data model (YAML fault packs) ===================== -/

/-- One option of a decision node (`{ label, text, next }` in the YAML). -/
structure DtOption where
  label : Option Str
  text : Option Str
  next : Option Str
deriving DecidableEq

/-- One decision node (`{ prompt, image, options }`).  `options` is `none`
when the YAML field is absent or not an array (the source guards with
`Array.isArray`). -/
structure DtNode where
  prompt : Option Str
  image : Option Str
  options : Option (List DtOption)
deriving DecidableEq

/-- A decision tree: `{ start_node, nodes }`.  `nodes` is an association
list modelling the YAML mapping from node id to node. -/
structure DecisionTree where
  start_node : Option Str
  nodes : Option (List (Str × DtNode))
deriving DecidableEq

/-- A normalized fault record (`normalizeFaultPack` guarantees `id` and
`title` are strings).  `telegramMarkdown` models the nested
`response.telegram_markdown` field. -/
structure Fault where
  id : Str
  title : Str
  description : Option Str
  telegramMarkdown : Option Str
  decision_tree : Option DecisionTree
deriving DecidableEq

/-- Node lookup in the tree's node map (`tree.nodes[nodeId]`). -/
def lookupNode (nodes : List (Str × DtNode)) (k : Str) : Option DtNode :=
  (nodes.find? (fun p => p.1 == k)).map (fun p => p.2)

/-- The read-only world the engine consults: the four manufacturer fault
packs (reloaded from YAML on every access by the external loader) and the
image-key resolver `imageKeyToUrl` (filesystem plus `PUBLIC_URL`, an
external collaborator; it returns the empty string when no fetchable URL
exists). -/
structure Env where
  general_dc : List Fault
  autel : List Fault
  kempower : List Fault
  tritium : List Fault
  imageUrl : Str → Str

/-- `loadPackByName`: lowercase the pack key; unknown keys fall back to
the Autel pack, exactly as the source does. -/
def loadPackByName (env : Env) (pack : Str) : List Fault :=
  let p := jsToLower pack
  if p = "general_dc".toList then env.general_dc
  else if p = "kempower".toList then env.kempower
  else if p = "tritium".toList then env.tritium
  else env.autel

/-- `getFaultById(pack, id)`. -/
def getFaultById (env : Env) (pack id : Str) : Option Fault :=
  (loadPackByName env pack).find? (fun x => x.id == id)

/- ===================== Callback-data builders ===================== -/

def cbPackMenu (pack : Str) : Str := pack ++ ":menu".toList

def cbPackAll (pack : Str) : Str := pack ++ ":all".toList

def cbFault (pack id : Str) : Str := pack ++ ":fault:".toList ++ id

def cbReportFromFault (pack faultId : Str) : Str :=
  "RF|".toList ++ pack ++ "|".toList ++ faultId

/-- Reserved route tokens (indirection into a `general_dc` fault). -/
def routeTokOffline : Str := "__ROUTE_GENERAL_DC_OFFLINE__".toList
def routeTokOvertemp : Str := "__ROUTE_GENERAL_DC_OVERTEMP__".toList

/-- Reserved menu-jump tokens. -/
def menuTokGeneralDc : Str := "__MENU_GENERAL_DC__".toList
def menuTokKempower : Str := "__MENU_KEMPOWER__".toList
def menuTokAutel : Str := "__MENU_AUTEL__".toList
def menuTokTritium : Str := "__MENU_TRITIUM__".toList

/- ===================== Session state ===================== -/

/-- Per-chat decision-tree state (`dtState` entry):
`{ pack, faultId, history, messageId }`. -/
structure DtSession where
  pack : Str
  faultId : Str
  history : List Str
  messageId : Option Nat
deriving DecidableEq

/-- Message-bound decision-tree state (`dtMsgState` entry for one chat):
`{ pack, faultId, history }`. -/
structure MsgState where
  pack : Str
  faultId : Str
  history : List Str
deriving DecidableEq

/-- All mutable per-chat state the callback handler touches: the
session-level `dtState` entry, the message-bound `dtMsgState` entries
(keyed by message id), whether a report wizard is active
(`reportState` presence), and the chat's last processed-callback
timestamp in the `__EVBOT_CB_RL` rate-limit map (`0` when absent, as
`get(chatId) || 0` yields). -/
structure ChatState where
  dt : Option DtSession
  dtMsg : Nat → Option MsgState
  reportActive : Bool
  rlLast : Nat

/-- `resetDt`. -/
def resetDt (st : ChatState) : ChatState := { st with dt := none }

/-- `clearReport` (the wizard's contents are outside the verified core;
only presence matters to the modelled control flow). -/
def clearReport (st : ChatState) : ChatState := { st with reportActive := false }

/-- `setDt(chatId, patch)`: merge a partial patch into the existing
session state or the default `{ pack:"", faultId:"", history:[],
messageId:null }`.  A `some` argument is a field present in the patch. -/
def setDt (st : ChatState) (p f : Option Str) (h : Option (List Str))
    (m : Option (Option Nat)) : ChatState :=
  let cur := st.dt.getD ⟨[], [], [], none⟩
  { st with dt := some ⟨p.getD cur.pack, f.getD cur.faultId, h.getD cur.history, m.getD cur.messageId⟩ }

/-- `setDtForMessage(chatId, messageId, patch)`: merge into the
message-bound entry (default `{ pack:"", faultId:"", history:[] }`);
a missing message id is a no-op, as in the source. -/
def setDtForMessage (st : ChatState) (mid : Option Nat) (p f : Option Str)
    (h : Option (List Str)) : ChatState :=
  match mid with
  | none => st
  | some m =>
    let cur := (st.dtMsg m).getD ⟨[], [], []⟩
    let nw : MsgState := ⟨p.getD cur.pack, f.getD cur.faultId, h.getD cur.history⟩
    { st with dtMsg := fun k => if k = m then some nw else st.dtMsg k }

/-- `String(hist[hist.length - 1])`: the stringified top of the history,
which is the literal string `"undefined"` when the history is empty
(`String(undefined)` in JS). -/
def jsLastStr (h : List Str) : Str :=
  match h.getLast? with
  | none => "undefined".toList
  | some l => l

/-- `pushDtHistory(chatId, nodeId)`: append unless it equals the current
top.  The source compares `String(last) !== String(nodeId)` where `last`
is `undefined` on an empty history — faithfully modelled by `jsLastStr`. -/
def pushDtHistory (st : ChatState) (nodeId : Str) : ChatState :=
  match st.dt with
  | none => st
  | some s =>
    if jsLastStr s.history = nodeId then setDt st none none (some s.history) none
    else setDt st none none (some (s.history ++ [nodeId])) none

/-- `popDtHistory(chatId)`: with zero or one entries return `null` and
leave the state untouched; otherwise drop the top, store the shortened
history, and return the new top (`hist[len-1] || null`, so an
empty-string top also yields `null`). -/
def popDtHistory (st : ChatState) : Option Str × ChatState :=
  match st.dt with
  | none => (none, st)
  | some s =>
    if s.history.length ≤ 1 then (none, st)
    else
      let hist2 := s.history.dropLast
      let prev : Option Str :=
        match hist2.getLast? with
        | none => none
        | some l => if truthy l then some l else none
      (prev, setDt st none none (some hist2) none)

/-- `getActiveDtState` (defined inside the callback handler): session
state first; else the message-bound state for the originating message,
promoted into session state via `setDt` (whose merge leaves
`messageId` at its default `null`). -/
def getActiveDtState (st : ChatState) (mid : Option Nat) :
    Option DtSession × ChatState :=
  match st.dt with
  | some s => (some s, st)
  | none =>
    match mid with
    | none => (none, st)
    | some m =>
      match st.dtMsg m with
      | none => (none, st)
      | some ms =>
        let s : DtSession := ⟨ms.pack, ms.faultId, ms.history, none⟩
        (some s, setDt st (some ms.pack) (some ms.faultId) (some ms.history) none)

/- ===================== Views ===================== -/

/-- One inline keyboard button: `{ text, callback_data }`. -/
structure Button where
  text : Str
  callback_data : Str
deriving DecidableEq

/-- One chat message the handler emits (via `sendMessage` /
`upsertMessage`; edit-versus-send and `parse_mode` are transport
concerns).  A bare `sendMessage` carries an empty keyboard. -/
structure OutMsg where
  text : Str
  keyboard : List (List Button)
deriving DecidableEq

/- ===================== Menus ===================== -/

/-- `showManufacturerMenu`: resets session state and shows the root
manufacturer-selection view. -/
def showManufacturerMenu (st : ChatState) : ChatState × OutMsg :=
  (resetDt st,
   ⟨"⚡ <b>EVBot – Troubleshooting</b>\n\nSelect the charger manufacturer:".toList,
    [[⟨"🧰 General DC (All Brands)".toList, "mfr:general_dc".toList⟩],
     [⟨"🔵 Autel".toList, "mfr:autel".toList⟩],
     [⟨"🟢 Kempower".toList, "mfr:kempower".toList⟩],
     [⟨"🔺 Tritium".toList, "mfr:tritium".toList⟩],
     [⟨"🧾 Build a report (/report)".toList, "r:new".toList⟩],
     [⟨"🔁 Reset".toList, "reset".toList⟩]]⟩)

/-- `buildPackMenuKeyboard`: one row per fault (a `noop` warning row when
the pack loaded empty), then the fixed report/back/reset rows. -/
def buildPackMenuKeyboard (env : Env) (pack : Str) : List (List Button) :=
  let faults := loadPackByName env pack
  let packLabel : Str :=
    if pack = "general_dc".toList then "General DC".toList else cap pack
  let faultRows : List (List Button) :=
    if faults.isEmpty then
      [[⟨"⚠️ No ".toList ++ packLabel ++ " faults loaded (check /debug/".toList ++ pack ++ ")".toList,
         "noop".toList⟩]]
    else faults.map (fun f => [⟨f.title, cbFault pack f.id⟩])
  faultRows ++
    [[⟨"🧾 Build a report (/report)".toList, "r:new".toList⟩],
     [⟨"⬅️ Back to Manufacturer".toList, "menu:mfr".toList⟩],
     [⟨"🔁 Reset".toList, "reset".toList⟩]]

/-- `buildGeneralDcQuickKeyboard`: the static quick-pick rows. -/
def buildGeneralDcQuickKeyboard : List (List Button) :=
  [[⟨"🟥 Will Not Power On".toList, cbFault "general_dc".toList "general_dc_will_not_power_on".toList⟩],
   [⟨"🟧 Won’t Start Charge".toList, cbFault "general_dc".toList "general_dc_powers_on_wont_start_charge".toList⟩],
   [⟨"🟨 Offline / Comms".toList, cbFault "general_dc".toList "general_dc_offline_backend_comms".toList⟩],
   [⟨"🟦 Handshake Failure".toList, cbFault "general_dc".toList "general_dc_vehicle_handshake_failure".toList⟩],
   [⟨"🟪 Insulation / Earth Fault".toList, cbFault "general_dc".toList "general_dc_insulation_earth_fault".toList⟩],
   [⟨"🟫 Overtemp / Cooling".toList, cbFault "general_dc".toList "general_dc_overtemp_cooling_fault".toList⟩],
   [⟨"⬛ E-Stop / Interlock".toList, cbFault "general_dc".toList "general_dc_estop_interlock_active".toList⟩],
   [⟨"🟠 Low Power / Derating".toList, cbFault "general_dc".toList "general_dc_power_derating_low_power".toList⟩],
   [⟨"🖥️ HMI Frozen".toList, cbFault "general_dc".toList "general_dc_hmi_frozen_unresponsive".toList⟩],
   [⟨"📋 View all General DC faults".toList, cbPackAll "general_dc".toList⟩],
   [⟨"🧾 Build a report (/report)".toList, "r:new".toList⟩],
   [⟨"⬅️ Back to Manufacturer".toList, "menu:mfr".toList⟩],
   [⟨"🔁 Reset".toList, "reset".toList⟩]]

/-- `showGeneralDcMenu`: resets chat-level DT state (message-level state
keeps old buttons working) and shows the quick-pick menu. -/
def showGeneralDcMenu (st : ChatState) : ChatState × OutMsg :=
  (resetDt st,
   ⟨"🧰 <b>General DC (All Brands)</b>\n\nSelect the issue category:".toList,
    buildGeneralDcQuickKeyboard⟩)

/-- `showGeneralDcAllMenu`. -/
def showGeneralDcAllMenu (env : Env) (st : ChatState) : ChatState × OutMsg :=
  (resetDt st,
   ⟨"🧰 <b>General DC (All Brands)</b>\n\nChoose a General DC fault:".toList,
    buildPackMenuKeyboard env "general_dc".toList⟩)

/-- `showAutelMenu`. -/
def showAutelMenu (env : Env) (st : ChatState) : ChatState × OutMsg :=
  (resetDt st,
   ⟨"🔵 <b>Autel</b>\n\nChoose an Autel fault:".toList,
    buildPackMenuKeyboard env "autel".toList⟩)

/-- `showKempowerMenu`. -/
def showKempowerMenu (env : Env) (st : ChatState) : ChatState × OutMsg :=
  (resetDt st,
   ⟨"🟢 <b>Kempower</b>\n\nChoose a Kempower fault:".toList,
    buildPackMenuKeyboard env "kempower".toList⟩)

/-- `showTritiumMenu`. -/
def showTritiumMenu (env : Env) (st : ChatState) : ChatState × OutMsg :=
  (resetDt st,
   ⟨"🔺 <b>Tritium</b>\n\nChoose a Tritium fault:".toList,
    buildPackMenuKeyboard env "tritium".toList⟩)

/- ===================== Fault card ===================== -/

/-- `buildLegacyFaultHtml`. -/
def buildLegacyFaultHtml (f : Fault) : Str :=
  let l1 := "🧰 <b>".toList
    ++ escapeHtml (if truthy f.title then f.title else "Fault".toList)
    ++ "</b>".toList
  let lines :=
    match f.description with
    | some d => if truthy d then [l1, '\n' :: escapeHtml d, "\n".toList] else [l1, "\n".toList]
    | none => [l1, "\n".toList]
  List.intercalate "\n".toList lines

/-- `showFaultCard`: bind session state (empty history) and the
message-bound mirror to this fault, then render the card with a
"start troubleshooting" button when a usable tree exists. -/
def showFaultCard (st : ChatState) (mid : Option Nat) (pack : Str)
    (fault : Fault) : ChatState × OutMsg :=
  let st1 := setDt st (some pack) (some fault.id) (some []) (some mid)
  let st2 := setDtForMessage st1 mid (some pack) (some fault.id) (some [])
  let startRow : List (List Button) :=
    match fault.decision_tree with
    | some t =>
      if otruthy t.start_node && t.nodes.isSome then
        [[⟨"🧭 Start troubleshooting".toList, "dt:start".toList⟩]]
      else []
    | none => []
  let rows := startRow ++
    [[⟨"🧾 Create report for this fault".toList, cbReportFromFault pack fault.id⟩],
     [⟨"⬅️ Back".toList, cbPackMenu pack⟩]]
  let text :=
    match fault.telegramMarkdown with
    | some s => if truthy s then s else buildLegacyFaultHtml fault
    | none => buildLegacyFaultHtml fault
  (st2, ⟨text, rows⟩)

/- ===================== Decision tree rendering ===================== -/

/-- The "node not found" error view. -/
def nodeNotFoundMsg (pack nodeId : Str) : OutMsg :=
  ⟨"⚠️ Decision node not found: ".toList ++ nodeId,
   [[⟨"⬅️ Back".toList, cbPackMenu pack⟩]]⟩

/-- The error text when a route token's designated target fault (or its
tree's start node) is missing. -/
def routeMissText (tok : Str) : Str :=
  if tok = routeTokOffline then "⚠️ Route fault missing: Offline/Comms route.".toList
  else "⚠️ Route fault missing: Overtemp/Cooling route.".toList

/-- The optional-chained node lookup `fault?.decision_tree?.nodes?.[nodeId]`. -/
def treeNodeLookup (fault : Fault) (nodeId : Str) : Option DtNode :=
  match fault.decision_tree with
  | some t =>
    match t.nodes with
    | some ns => lookupNode ns nodeId
    | none => none
  | none => none

/-- The optional-chained truthy start node `rf?.decision_tree?.start_node`
(`none` when the fault, its tree, or its start node is missing or the
start node is the empty string, all falsy in JS). -/
def dtStartOf : Option Fault → Option Str
  | none => none
  | some rf =>
    match rf.decision_tree with
    | none => none
    | some t =>
      match t.start_node with
      | none => none
      | some s => if truthy s then some s else none

/-- `renderYamlDecisionNode`, with an explicit recursion budget for the
route-token recursion (the JS recursion is bounded only by the call
stack; exhausting the budget yields no view, matching divergence).
Order follows the source: route-token checks, node lookup, menu-jump
checks, the not-found view, then state update and view construction. -/
def renderYamlDecisionNode (env : Env) :
    Nat → ChatState → Option Nat → Str → Fault → Str → ChatState × List OutMsg
  | 0, st, _, _, _, _ => (st, [])
  | fuel + 1, st, mid, pack, fault, nodeId =>
    if nodeId = routeTokOffline ∨ nodeId = routeTokOvertemp then
      match getFaultById env "general_dc".toList nodeId with
      | none => (st, [⟨routeMissText nodeId, []⟩])
      | some rf =>
        match rf.decision_tree with
        | none => (st, [⟨routeMissText nodeId, []⟩])
        | some t =>
          match t.start_node with
          | none => (st, [⟨routeMissText nodeId, []⟩])
          | some s =>
            if !truthy s then (st, [⟨routeMissText nodeId, []⟩])
            else
              let st1 := setDt st (some "general_dc".toList) (some rf.id) (some []) (some mid)
              let st2 := setDtForMessage st1 mid (some "general_dc".toList) (some rf.id) (some [])
              renderYamlDecisionNode env fuel st2 mid "general_dc".toList rf s
    else
      let node := treeNodeLookup fault nodeId
      if nodeId = menuTokGeneralDc then
        let r := showGeneralDcMenu st
        (r.1, [r.2])
      else if nodeId = menuTokKempower then
        let r := showKempowerMenu env st
        (r.1, [r.2])
      else if nodeId = menuTokAutel then
        let r := showAutelMenu env st
        (r.1, [r.2])
      else if nodeId = menuTokTritium then
        let r := showTritiumMenu env st
        (r.1, [r.2])
      else
        match node with
        | none => (st, [nodeNotFoundMsg pack nodeId])
        | some nd =>
          let st1 := setDt st (some pack) (some fault.id) none (some mid)
          let st2 := pushDtHistory st1 nodeId
          let st3 :=
            match st2.dt with
            | some s =>
              setDtForMessage st2 mid
                (some (if truthy s.pack then s.pack else pack))
                (some (if truthy s.faultId then s.faultId else fault.id))
                (some s.history)
            | none => setDtForMessage st2 mid (some pack) (some fault.id) (some [])
          let text : Str :=
            match nd.prompt with
            | some p => if truthy p then p else "…".toList
            | none => "…".toList
          let opts := nd.options.getD []
          let optRows : List (List Button) :=
            (List.range opts.length).zipWith
              (fun i opt =>
                let lbl : Str :=
                  match opt.label with
                  | some l => if truthy l then l else
                    (match opt.text with
                     | some tx => if truthy tx then tx else "Next".toList
                     | none => "Next".toList)
                  | none =>
                    (match opt.text with
                     | some tx => if truthy tx then tx else "Next".toList
                     | none => "Next".toList)
                [⟨lbl, "dt:o:".toList ++ (Nat.repr i).toList⟩])
              opts
          let rows := optRows ++
            [[⟨"🧾 Create report for this fault".toList, cbReportFromFault pack fault.id⟩],
             [⟨"⬅️ Back".toList, "dt:bk".toList⟩],
             [⟨"🏠 ".toList
                 ++ (if pack = "general_dc".toList then "General DC".toList else cap pack)
                 ++ " menu".toList,
               "dt:mn".toList⟩]]
          let imageUrl : Str :=
            match nd.image with
            | some im => if truthy im then env.imageUrl im else []
            | none => []
          let outMsg : OutMsg :=
            match nd.image with
            | some im =>
              if truthy im ∧ ¬ truthy imageUrl then
                ⟨text ++ "\n\n⚠️ (Image referenced, but PUBLIC_URL is blank so Telegram can’t fetch it.)".toList, rows⟩
              else ⟨text, rows⟩
            | none => ⟨text, rows⟩
          (st3, [outMsg])

/- ===================== Report wizard entry points ===================== -/

/-- `startReport`: (re)initialize the wizard at the `site` step and
prompt for the site name (the wizard's field sequence is outside the
verified core; only the emitted view and the presence flag matter). -/
def startReport (st : ChatState) : ChatState × OutMsg :=
  ({ st with reportActive := true },
   ⟨"🧾 <b>Report Builder</b>\n\nWhat is the <b>site name</b>?\n\n(Reply with text)".toList, []⟩)

/-- `startReportFromFault`: initialize the wizard prefilled from a fault
and prompt for the site name. -/
def startReportFromFault (st : ChatState) (pack : Str) (fault : Fault) :
    ChatState × OutMsg :=
  let packLabel : Str :=
    if pack = "general_dc".toList then "General DC".toList else cap pack
  ({ st with reportActive := true },
   ⟨"🧾 <b>Report Builder</b>\n\nPrefilled:\n<b>Manufacturer:</b> ".toList
      ++ escapeHtml packLabel
      ++ "\n<b>Fault:</b> ".toList
      ++ escapeHtml fault.title
      ++ "\n\nWhat is the <b>site name</b>?\n\n(Reply with text)".toList, []⟩)

/- ===================== The callback handler ===================== -/

/-- The recursion budget the handler grants `renderYamlDecisionNode`
(route chains in the shipped content are at most one hop deep). -/
def renderFuel : Nat := 3

/-- The "Fault not found." view shown by the fault-selection branches. -/
def faultNotFoundMsg (pack : Str) : OutMsg :=
  ⟨"Fault not found.".toList, [[⟨"⬅️ Back".toList, cbPackMenu pack⟩]]⟩

/-- The `dt:start` branch of the callback handler. -/
def dtStartHandler (env : Env) (st : ChatState) (mid : Option Nat) :
    ChatState × List OutMsg :=
  let a := getActiveDtState st mid
  let st := a.2
  match a.1 with
  | none => (st, [⟨"⚠️ No active fault selected. Tap a fault first (not just the menu).".toList, []⟩])
  | some s =>
    if ¬ (truthy s.pack ∧ truthy s.faultId) then
      (st, [⟨"⚠️ No active fault selected. Tap a fault first (not just the menu).".toList, []⟩])
    else
      match getFaultById env s.pack s.faultId with
      | none => (st, [⟨"⚠️ This fault has no decision tree.".toList, []⟩])
      | some fault =>
        match fault.decision_tree with
        | none => (st, [⟨"⚠️ This fault has no decision tree.".toList, []⟩])
        | some t =>
          match t.start_node with
          | none => (st, [⟨"⚠️ This fault has no decision tree.".toList, []⟩])
          | some sn =>
            if ¬ truthy sn then (st, [⟨"⚠️ This fault has no decision tree.".toList, []⟩])
            else
              let st := setDt st none none (some []) none
              let st := setDtForMessage st mid none none (some [])
              renderYamlDecisionNode env renderFuel st mid s.pack fault sn

/-- The current node id of an active session: the top of history, or the
tree's start node when the history is empty (`st.history[len-1]` via the
`Array.isArray(st.history) && st.history.length` guard). -/
def currentNodeIdOf (s : DtSession) (sn : Str) : Str :=
  if s.history.isEmpty then sn else s.history.getLastD []

/-- The declared options of a node id: empty when the node is missing
from the map or declares no array of options. -/
def currentOpts (ns : List (Str × DtNode)) (cur : Str) : List DtOption :=
  match lookupNode ns cur with
  | some nd => nd.options.getD []
  | none => []

/-- The `dt:o:<index>` (advance) branch of the callback handler. -/
def dtOptionHandler (env : Env) (st : ChatState) (mid : Option Nat)
    (data : Str) : ChatState × List OutMsg :=
  let a := getActiveDtState st mid
  let st := a.2
  match a.1 with
  | none => (st, [⟨"⚠️ No active fault selected. Open a fault first.".toList, []⟩])
  | some s =>
    if ¬ (truthy s.pack ∧ truthy s.faultId) then
      (st, [⟨"⚠️ No active fault selected. Open a fault first.".toList, []⟩])
    else
      match jsNumberInt ((jsSplit ':' data).getD 2 []) with
      | none => (st, [])
      | some idx =>
        match getFaultById env s.pack s.faultId with
        | none => (st, [])
        | some fault =>
          match fault.decision_tree with
          | none => (st, [])
          | some t =>
            match t.nodes, t.start_node with
            | some ns, some sn =>
              if ¬ truthy sn then (st, [])
              else
                let opts := currentOpts ns (currentNodeIdOf s sn)
                let nextNodeId : Option Str :=
                  match jsIndex opts idx with
                  | some opt => opt.next
                  | none => none
                match nextNodeId with
                | none => (st, [⟨"⚠️ Option is missing a next node.".toList, []⟩])
                | some nx =>
                  if ¬ truthy nx then (st, [⟨"⚠️ Option is missing a next node.".toList, []⟩])
                  else renderYamlDecisionNode env renderFuel st mid s.pack fault nx
            | _, _ => (st, [])

/-- The best-effort alignment of the message-level history performed by
the `dt:bk` branch: if the originating message's bound state has more
than one history entry, drop its top. -/
def backAlignMsg (st : ChatState) (mid : Option Nat) : ChatState :=
  match mid with
  | some m =>
    match st.dtMsg m with
    | some ms =>
      if 1 < ms.history.length then
        setDtForMessage st mid none none (some ms.history.dropLast)
      else st
    | none => st
  | none => st

/-- The `dt:bk` (go back) branch of the callback handler. -/
def dtBackHandler (env : Env) (st : ChatState) (mid : Option Nat) :
    ChatState × List OutMsg :=
  let a := getActiveDtState st mid
  let st := a.2
  match a.1 with
  | none => (st, [])
  | some s =>
    if ¬ (truthy s.pack ∧ truthy s.faultId) then (st, [])
    else
      match getFaultById env s.pack s.faultId with
      | none =>
        let r := showManufacturerMenu st
        (r.1, [r.2])
      | some fault =>
        let p := popDtHistory st
        let st := backAlignMsg p.2 mid
        match p.1 with
        | none =>
          let r := showFaultCard st mid s.pack fault
          (r.1, [r.2])
        | some prevNode =>
          renderYamlDecisionNode env renderFuel st mid s.pack fault prevNode

/-- The `dt:mn` (return to pack menu) branch of the callback handler. -/
def dtMenuHandler (env : Env) (st : ChatState) (mid : Option Nat) :
    ChatState × List OutMsg :=
  let a := getActiveDtState st mid
  let st := a.2
  match a.1 with
  | none =>
    let r := showManufacturerMenu st
    (r.1, [r.2])
  | some s =>
    if ¬ truthy s.pack then
      let r := showManufacturerMenu st
      (r.1, [r.2])
    else
      let st := resetDt st
      if s.pack = "general_dc".toList then
        let r := showGeneralDcMenu st
        (r.1, [r.2])
      else if s.pack = "kempower".toList then
        let r := showKempowerMenu env st
        (r.1, [r.2])
      else if s.pack = "tritium".toList then
        let r := showTritiumMenu env st
        (r.1, [r.2])
      else
        let r := showAutelMenu env st
        (r.1, [r.2])

/-- The standard `<pack>:fault:<id>` fault-selection branch. -/
def standardFaultHandler (env : Env) (st : ChatState) (mid : Option Nat)
    (data : Str) : ChatState × List OutMsg :=
  let parts := jsSplit ':' data
  let pack := jsToLower (parts.getD 0 [])
  let id := List.intercalate ":".toList (parts.drop 2)
  match getFaultById env pack id with
  | none =>
    let st := resetDt st
    (st, [faultNotFoundMsg pack])
  | some fault =>
    let r := showFaultCard st mid pack fault
    (r.1, [r.2])

/-- One of the four legacy `<PACK_UPPER>:<id>` fault-selection branches,
parametrized by its (lower-case) pack constant; the literal back-button
callback `"<pack>:menu"` of each copy is exactly `pack ++ ":menu"`. -/
def legacyFaultHandler (env : Env) (st : ChatState) (mid : Option Nat)
    (pack : Str) (data : Str) : ChatState × List OutMsg :=
  let id := (jsSplit ':' data).getD 1 []
  match getFaultById env pack id with
  | none =>
    let st := resetDt st
    (st, [⟨"Fault not found.".toList, [[⟨"⬅️ Back".toList, pack ++ ":menu".toList⟩]]⟩])
  | some fault =>
    let r := showFaultCard st mid pack fault
    (r.1, [r.2])

/-- The `bot.on("callback_query")` handler for one chat, after the
callback acknowledgement (which always happens and emits no chat
message).  Arguments: the environment, the chat's state, the originating
message id (`q.message.message_id`), `Date.now()`, and the callback
data.  Returns the new state and the chat messages sent. -/
def handleCallback (env : Env) (st : ChatState) (mid : Option Nat)
    (now : Nat) (data : Str) : ChatState × List OutMsg :=
  -- __EVBOT_CB_RL rate limit: drop bursts within 250 ms of the last
  -- processed callback; a dropped callback does not refresh the window.
  if now - st.rlLast < 250 then (st, [])
  else
    let st := { st with rlLast := now }
    if data = "noop".toList then (st, [])
    else if data = "reset".toList ∨ data = "menu:mfr".toList then
      let r := showManufacturerMenu (resetDt (clearReport st))
      (r.1, [r.2])
    else if data = "r:new".toList then
      let r := startReport (resetDt (clearReport st))
      (r.1, [r.2])
    else if jsStartsWith "mfr:".toList data then
      let mfr := (jsSplit ':' data).getD 1 []
      let st := resetDt (clearReport st)
      if mfr = "general_dc".toList then
        let r := showGeneralDcMenu st
        (r.1, [r.2])
      else if mfr = "autel".toList then
        let r := showAutelMenu env st
        (r.1, [r.2])
      else if mfr = "kempower".toList then
        let r := showKempowerMenu env st
        (r.1, [r.2])
      else if mfr = "tritium".toList then
        let r := showTritiumMenu env st
        (r.1, [r.2])
      else
        let r := showManufacturerMenu st
        (r.1, [r.2])
    else if jsEndsWith ":menu".toList data then
      let pack := jsToLower ((jsSplit ':' data).getD 0 [])
      let st := resetDt (clearReport st)
      if pack = "general_dc".toList then
        let r := showGeneralDcMenu st
        (r.1, [r.2])
      else if pack = "kempower".toList then
        let r := showKempowerMenu env st
        (r.1, [r.2])
      else if pack = "tritium".toList then
        let r := showTritiumMenu env st
        (r.1, [r.2])
      else
        let r := showAutelMenu env st
        (r.1, [r.2])
    else if jsEndsWith ":all".toList data then
      let pack := jsToLower ((jsSplit ':' data).getD 0 [])
      let st := resetDt (clearReport st)
      if pack = "general_dc".toList then
        let r := showGeneralDcAllMenu env st
        (r.1, [r.2])
      else if pack = "kempower".toList then
        let r := showKempowerMenu env st
        (r.1, [r.2])
      else if pack = "tritium".toList then
        let r := showTritiumMenu env st
        (r.1, [r.2])
      else
        let r := showAutelMenu env st
        (r.1, [r.2])
    else if jsStartsWith "RF|".toList data then
      let parts := jsSplit '|' data
      let pack := parts.getD 1 []
      let faultId := parts.getD 2 []
      match getFaultById env pack faultId with
      | none => (st, [⟨"⚠️ Could not start report: fault not found.".toList, []⟩])
      | some fault =>
        let r := startReportFromFault (resetDt (clearReport st)) pack fault
        (r.1, [r.2])
    else if data = "dt:start".toList then
      dtStartHandler env st mid
    else if jsStartsWith "dt:o:".toList data then
      dtOptionHandler env st mid data
    else if data = "dt:bk".toList then
      dtBackHandler env st mid
    else if data = "dt:mn".toList then
      dtMenuHandler env st mid
    else if strIncludes ":fault:".toList data then
      standardFaultHandler env st mid data
    else if jsStartsWith "GENERAL_DC:".toList data then
      legacyFaultHandler env st mid "general_dc".toList data
    else if jsStartsWith "AUTEL:".toList data then
      legacyFaultHandler env st mid "autel".toList data
    else if jsStartsWith "KEMPOWER:".toList data then
      legacyFaultHandler env st mid "kempower".toList data
    else if jsStartsWith "TRITIUM:".toList data then
      legacyFaultHandler env st mid "tritium".toList data
    else (st, [])

/- ===================== Basic state lemmas ===================== -/

/-- The message-bound store never affects the session-level entry. -/
theorem setDtForMessage_dt (st : ChatState) (mid : Option Nat)
    (p f : Option Str) (h : Option (List Str)) :
    (setDtForMessage st mid p f h).dt = st.dt := by
  cases mid <;> rfl

theorem setDtForMessage_rlLast (st : ChatState) (mid : Option Nat)
    (p f : Option Str) (h : Option (List Str)) :
    (setDtForMessage st mid p f h).rlLast = st.rlLast := by
  cases mid <;> rfl

/-- `pushDtHistory` on a present session: all fields preserved, history
appended unless the stringified top already equals the node id. -/
theorem pushDtHistory_dt (st : ChatState) (s : DtSession) (n : Str)
    (h : st.dt = some s) :
    (pushDtHistory st n).dt
      = some ⟨s.pack, s.faultId,
              if jsLastStr s.history = n then s.history else s.history ++ [n],
              s.messageId⟩ := by
  unfold pushDtHistory
  rw [h]
  by_cases hc : jsLastStr s.history = n <;> simp [hc, setDt, h]

/-- Disjointness of the reserved-token checks: not a route token. -/
abbrev notRouteTok (n : Str) : Prop := n ≠ routeTokOffline ∧ n ≠ routeTokOvertemp

/-- Not a menu-jump token. -/
abbrev notMenuTok (n : Str) : Prop :=
  n ≠ menuTokGeneralDc ∧ n ≠ menuTokKempower ∧ n ≠ menuTokAutel ∧ n ≠ menuTokTritium

/- ===================== Node rendering lemmas ===================== -/

/-- Menu-jump unfolding, General DC. -/
theorem render_menu_generalDc (env : Env) (st : ChatState) (mid : Option Nat)
    (pack : Str) (fault : Fault) (f : Nat) :
    renderYamlDecisionNode env (f + 1) st mid pack fault menuTokGeneralDc
      = ((showGeneralDcMenu st).1, [(showGeneralDcMenu st).2]) := rfl

/-- Menu-jump unfolding, Kempower. -/
theorem render_menu_kempower (env : Env) (st : ChatState) (mid : Option Nat)
    (pack : Str) (fault : Fault) (f : Nat) :
    renderYamlDecisionNode env (f + 1) st mid pack fault menuTokKempower
      = ((showKempowerMenu env st).1, [(showKempowerMenu env st).2]) := rfl

/-- Menu-jump unfolding, Autel. -/
theorem render_menu_autel (env : Env) (st : ChatState) (mid : Option Nat)
    (pack : Str) (fault : Fault) (f : Nat) :
    renderYamlDecisionNode env (f + 1) st mid pack fault menuTokAutel
      = ((showAutelMenu env st).1, [(showAutelMenu env st).2]) := rfl

/-- Menu-jump unfolding, Tritium. -/
theorem render_menu_tritium (env : Env) (st : ChatState) (mid : Option Nat)
    (pack : Str) (fault : Fault) (f : Nat) :
    renderYamlDecisionNode env (f + 1) st mid pack fault menuTokTritium
      = ((showTritiumMenu env st).1, [(showTritiumMenu env st).2]) := rfl

/-- A non-token node id that is absent from the tree renders the
"node not found" view and leaves the state untouched. -/
theorem render_notfound (env : Env) (st : ChatState) (mid : Option Nat)
    (pack : Str) (fault : Fault) (nodeId : Str) (f : Nat)
    (hr : notRouteTok nodeId) (hm : notMenuTok nodeId)
    (hlook : treeNodeLookup fault nodeId = none) :
    renderYamlDecisionNode env (f + 1) st mid pack fault nodeId
      = (st, [nodeNotFoundMsg pack nodeId]) := by
  obtain ⟨h1, h2⟩ := hr
  obtain ⟨h3, h4, h5, h6⟩ := hm
  unfold renderYamlDecisionNode
  rw [if_neg (by simp [h1, h2])]
  simp only [hlook]
  rw [if_neg h3, if_neg h4, if_neg h5, if_neg h6]

/-- A non-token node id present in the tree: the resulting session entry
is exactly the `setDt`-then-`pushDtHistory` update, and exactly one
message is emitted. -/
theorem render_found (env : Env) (st : ChatState) (mid : Option Nat)
    (pack : Str) (fault : Fault) (nodeId : Str) (f : Nat) (nd : DtNode)
    (hr : notRouteTok nodeId) (hm : notMenuTok nodeId)
    (hnd : treeNodeLookup fault nodeId = some nd) :
    ((renderYamlDecisionNode env (f + 1) st mid pack fault nodeId).1.dt
        = (pushDtHistory (setDt st (some pack) (some fault.id) none (some mid)) nodeId).dt)
    ∧ (renderYamlDecisionNode env (f + 1) st mid pack fault nodeId).2.length = 1 := by
  obtain ⟨h1, h2⟩ := hr
  obtain ⟨h3, h4, h5, h6⟩ := hm
  unfold renderYamlDecisionNode
  rw [if_neg (by simp [h1, h2])]
  simp only [hnd]
  rw [if_neg h3, if_neg h4, if_neg h5, if_neg h6]
  refine ⟨?_, rfl⟩
  cases hdt : (pushDtHistory (setDt st (some pack) (some fault.id) none (some mid)) nodeId).dt <;>
    simp [hdt, setDtForMessage_dt]

/-- Unpacking a truthy optional-chained start node. -/
theorem dtStartOf_some (rf : Fault) (s : Str) (h : dtStartOf (some rf) = some s) :
    ∃ t, rf.decision_tree = some t ∧ t.start_node = some s ∧ truthy s = true := by
  cases htr : rf.decision_tree with
  | none => simp [dtStartOf, htr] at h
  | some t =>
    cases hsn : t.start_node with
    | none => simp [dtStartOf, htr, hsn] at h
    | some s0 =>
      by_cases hs : truthy s0 = true
      · have hs0 : s0 = s := by simpa [dtStartOf, htr, hsn, hs] using h
        subst hs0
        exact ⟨t, rfl, hsn, hs⟩
      · simp [dtStartOf, htr, hsn, hs] at h

/- ===================== Sample content for witnesses ===================== -/

/-- A terminal sample node. -/
def nodeN2 : DtNode := ⟨some "B".toList, none, some []⟩

/-- A sample node with one option leading to `n2`. -/
def nodeN1 : DtNode := ⟨some "A".toList, none, some [⟨some "Yes".toList, none, some "n2".toList⟩]⟩

/-- A sample two-node tree starting at `n1`. -/
def treeF1 : DecisionTree :=
  ⟨some "n1".toList, some [("n1".toList, nodeN1), ("n2".toList, nodeN2)]⟩

/-- A sample Autel fault with the tree above. -/
def faultF1 : Fault := ⟨"F1".toList, "Fault 1".toList, none, none, some treeF1⟩

/-- The synthetic route-target fault carried by the `general_dc` pack
(by convention its id is the route token itself). -/
def routeFault : Fault :=
  ⟨routeTokOffline, "Offline route".toList, none, none,
   some ⟨some "r1".toList, some [("r1".toList, nodeN2)]⟩⟩

/-- A sample environment: the `general_dc` pack holds the route target,
the Autel pack holds `faultF1`. -/
def sampleEnv : Env := ⟨[routeFault], [faultF1], [], [], fun _ => []⟩

/-- An empty message-bound store. -/
def emptyMsgStore : Nat → Option MsgState := fun _ => none

/-- A session inside fault `F1` at node `n1`. -/
def sessionN1 : DtSession := ⟨"autel".toList, "F1".toList, ["n1".toList], none⟩

/-- A chat state holding that session. -/
def stateN1 : ChatState := ⟨some sessionN1, emptyMsgStore, false, 0⟩

/- ===================== C7 ===================== -/

/-- C7: a `renderNode` call whose node id is neither a reserved
indirection token nor a key of the fault's node map renders the
"node not found" error view with a single back-to-menu button, does not
throw (it is a total function), and performs no state update: the
returned state is exactly the input state. -/
theorem c7_unknown_node (env : Env) (st : ChatState) (mid : Option Nat)
    (pack : Str) (fault : Fault) (nodeId : Str) (f : Nat)
    (hr : notRouteTok nodeId) (hm : notMenuTok nodeId)
    (hlook : treeNodeLookup fault nodeId = none) :
    renderYamlDecisionNode env (f + 1) st mid pack fault nodeId
      = (st, [⟨"⚠️ Decision node not found: ".toList ++ nodeId,
              [[⟨"⬅️ Back".toList, cbPackMenu pack⟩]]⟩]) :=
  render_notfound env st mid pack fault nodeId f hr hm hlook

/-- C7 witness at a concrete unknown node id. -/
theorem c7_unknown_node_witness :
    renderYamlDecisionNode sampleEnv 1 stateN1 none "autel".toList faultF1 "zzz".toList
      = (stateN1, [⟨"⚠️ Decision node not found: ".toList ++ "zzz".toList,
                   [[⟨"⬅️ Back".toList, cbPackMenu "autel".toList⟩]]⟩]) :=
  c7_unknown_node sampleEnv stateN1 none "autel".toList faultF1 "zzz".toList 0
    (by decide) (by decide) (by decide)

/- ===================== C8 ===================== -/

/-- C8 counterexample: rendering the Autel menu-jump token from a session
whose history is `[n1]` does not leave the session history untouched —
the delegated menu renderer clears the session-level state entirely, so
the session entry (history included) is gone afterwards. -/
theorem c8_counterexample :
    (renderYamlDecisionNode sampleEnv 1 stateN1 none "autel".toList faultF1 menuTokAutel).1.dt
      ≠ stateN1.dt := by decide

/-- C8 (amended): a reserved menu-jump token delegates directly to the
corresponding pack's menu renderer and returns without any further tree
processing (the result is exactly the menu renderer's view); no history
push occurs, but the menu renderer clears the session-level state
entirely, so the session entry - history included - is removed. -/
theorem c8_menu_jump (env : Env) (st : ChatState) (mid : Option Nat)
    (pack : Str) (fault : Fault) (f : Nat) :
    (renderYamlDecisionNode env (f + 1) st mid pack fault menuTokGeneralDc
        = ((showGeneralDcMenu st).1, [(showGeneralDcMenu st).2])
      ∧ (renderYamlDecisionNode env (f + 1) st mid pack fault menuTokGeneralDc).1.dt = none)
    ∧ (renderYamlDecisionNode env (f + 1) st mid pack fault menuTokKempower
        = ((showKempowerMenu env st).1, [(showKempowerMenu env st).2])
      ∧ (renderYamlDecisionNode env (f + 1) st mid pack fault menuTokKempower).1.dt = none)
    ∧ (renderYamlDecisionNode env (f + 1) st mid pack fault menuTokAutel
        = ((showAutelMenu env st).1, [(showAutelMenu env st).2])
      ∧ (renderYamlDecisionNode env (f + 1) st mid pack fault menuTokAutel).1.dt = none)
    ∧ (renderYamlDecisionNode env (f + 1) st mid pack fault menuTokTritium
        = ((showTritiumMenu env st).1, [(showTritiumMenu env st).2])
      ∧ (renderYamlDecisionNode env (f + 1) st mid pack fault menuTokTritium).1.dt = none) :=
  ⟨⟨render_menu_generalDc env st mid pack fault f, rfl⟩,
   ⟨render_menu_kempower env st mid pack fault f, rfl⟩,
   ⟨render_menu_autel env st mid pack fault f, rfl⟩,
   ⟨render_menu_tritium env st mid pack fault f, rfl⟩⟩

/-- Unfolding lemma for the route-token branch in the success case: the
engine rebinds the session to the `general_dc` target fault with cleared
history and recurses into the target's start node. -/
theorem render_route_unfold (env : Env) (st : ChatState) (mid : Option Nat)
    (pack : Str) (fault : Fault) (f : Nat) (tok : Str) (rf : Fault)
    (t : DecisionTree) (s : Str)
    (htok : tok = routeTokOffline ∨ tok = routeTokOvertemp)
    (hrf : getFaultById env "general_dc".toList tok = some rf)
    (htr : rf.decision_tree = some t) (hsn : t.start_node = some s)
    (hs : truthy s = true) :
    renderYamlDecisionNode env (f + 1) st mid pack fault tok
      = renderYamlDecisionNode env f
          (setDtForMessage
            (setDt st (some "general_dc".toList) (some rf.id) (some []) (some mid))
            mid (some "general_dc".toList) (some rf.id) (some []))
          mid "general_dc".toList rf s := by
  unfold renderYamlDecisionNode
  rw [if_pos htok, hrf]
  simp only [htr, hsn]
  rw [if_neg (by simp [hs])]
  conv_lhs => rw [renderYamlDecisionNode.eq_def]

/- ===================== C5 ===================== -/

/-- C5: a `renderNode` call on a reserved route token looks up the
designated target fault in the `general_dc` pack, rebinds the session
state to that pack and fault with cleared history, and recurses into the
target tree's start node (so, when that start node is a genuine node of
the target tree, the resulting history is exactly `[startNode]`); if the
target fault or its decision tree (or its start node) is missing, the
engine emits a non-fatal error message and leaves the state unchanged
instead of crashing. -/
theorem c5_route_resolution (env : Env) (st : ChatState) (mid : Option Nat)
    (pack : Str) (fault : Fault) (f : Nat) (tok : Str)
    (htok : tok = routeTokOffline ∨ tok = routeTokOvertemp) :
    (∀ rf s nd, getFaultById env "general_dc".toList tok = some rf →
        dtStartOf (some rf) = some s →
        notRouteTok s → notMenuTok s → s ≠ "undefined".toList →
        treeNodeLookup rf s = some nd →
        (renderYamlDecisionNode env (f + 2) st mid pack fault tok
            = renderYamlDecisionNode env (f + 1)
                (setDtForMessage
                  (setDt st (some "general_dc".toList) (some rf.id) (some []) (some mid))
                  mid (some "general_dc".toList) (some rf.id) (some []))
                mid "general_dc".toList rf s)
        ∧ (renderYamlDecisionNode env (f + 2) st mid pack fault tok).1.dt
            = some ⟨"general_dc".toList, rf.id, [s], mid⟩)
    ∧ (dtStartOf (getFaultById env "general_dc".toList tok) = none →
        renderYamlDecisionNode env (f + 2) st mid pack fault tok
          = (st, [⟨routeMissText tok, []⟩])) := by
  constructor
  · intro rf s nd hrf hstart hrs hms hsu hnd
    obtain ⟨t, htr, hsn, hs⟩ := dtStartOf_some rf s hstart
    have hunfold :=
      render_route_unfold env st mid pack fault (f + 1) tok rf t s htok hrf htr hsn hs
    refine ⟨hunfold, ?_⟩
    rw [hunfold]
    have hfd := render_found env (f := f)
      (setDtForMessage
        (setDt st (some "general_dc".toList) (some rf.id) (some []) (some mid))
        mid (some "general_dc".toList) (some rf.id) (some []))
      mid "general_dc".toList rf s nd hrs hms hnd
    rw [hfd.1]
    rw [pushDtHistory_dt _ ⟨"general_dc".toList, rf.id, [], mid⟩ s
        (by simp [setDt, setDtForMessage_dt])]
    have hje : jsLastStr ([] : List Str) = "undefined".toList := rfl
    rw [hje, if_neg (fun hh => hsu hh.symm)]
    simp
  · intro hmiss
    show renderYamlDecisionNode env (f + 1 + 1) st mid pack fault tok = _
    unfold renderYamlDecisionNode
    rw [if_pos htok]
    cases hrf : getFaultById env "general_dc".toList tok with
    | none => rfl
    | some rf =>
      rw [hrf] at hmiss
      cases htr : rf.decision_tree with
      | none => simp only [htr]
      | some t =>
        cases hsn : t.start_node with
        | none => simp only [htr, hsn]
        | some s =>
          have hs : truthy s = false := by
            by_cases h : truthy s = true
            · exact absurd hmiss (by simp [dtStartOf, htr, hsn, h])
            · simpa using h
          simp only [htr, hsn]
          rw [if_pos (by simp [hs])]

/-- C5 witness: the Offline/Comms route token resolves into the sample
route fault's start node with history `[r1]`. -/
theorem c5_route_resolution_witness :
    (renderYamlDecisionNode sampleEnv 2 stateN1 none "autel".toList faultF1 routeTokOffline).1.dt
      = some ⟨"general_dc".toList, routeFault.id, ["r1".toList], none⟩ :=
  ((c5_route_resolution sampleEnv stateN1 none "autel".toList faultF1 0 routeTokOffline
      (Or.inl rfl)).1
    routeFault "r1".toList nodeN2 (by decide) (by decide) (by decide) (by decide)
    (by decide) (by decide)).2

/- ===================== Session-resolution lemmas ===================== -/

/-- When session-level state is present, `getActiveDtState` returns it
unchanged (no promotion needed). -/
theorem getActiveDtState_some (st : ChatState) (s : DtSession)
    (mid : Option Nat) (h : st.dt = some s) :
    getActiveDtState st mid = (some s, st) := by
  unfold getActiveDtState
  rw [h]

/-- The back-alignment step only touches the message-bound store. -/
theorem backAlignMsg_dt (st : ChatState) (mid : Option Nat) :
    (backAlignMsg st mid).dt = st.dt := by
  unfold backAlignMsg
  cases mid with
  | none => rfl
  | some m =>
    cases hm : st.dtMsg m with
    | none => simp [hm]
    | some ms =>
      by_cases hl : 1 < ms.history.length
      · simp [hm, hl, setDtForMessage_dt]
      · simp [hm, hl]

/-- A found fault's id is the id it was looked up by. -/
theorem getFaultById_id (env : Env) (pack id : Str) (fault : Fault)
    (h : getFaultById env pack id = some fault) : fault.id = id := by
  have hp := List.find?_some h
  simpa using hp

/-- The session entry produced by rendering a genuine node from a state
whose session entry is `s`. -/
theorem render_found_dt_eq (env : Env) (st : ChatState) (mid : Option Nat)
    (pack : Str) (fault : Fault) (nodeId : Str) (f : Nat) (nd : DtNode)
    (s : DtSession) (hdt : st.dt = some s)
    (hr : notRouteTok nodeId) (hm : notMenuTok nodeId)
    (hnd : treeNodeLookup fault nodeId = some nd) :
    (renderYamlDecisionNode env (f + 1) st mid pack fault nodeId).1.dt
      = some ⟨pack, fault.id,
              if jsLastStr s.history = nodeId then s.history else s.history ++ [nodeId],
              mid⟩ := by
  rw [(render_found env st mid pack fault nodeId f nd hr hm hnd).1,
      pushDtHistory_dt _ ⟨pack, fault.id, s.history, mid⟩ nodeId (by simp [setDt, hdt])]

/-- Unfolding `dt:bk` on an active, truthy session whose fault exists. -/
theorem dtBack_unfold (env : Env) (st : ChatState) (mid : Option Nat)
    (s : DtSession) (fault : Fault)
    (hdt : st.dt = some s)
    (hp : truthy s.pack = true) (hfid : truthy s.faultId = true)
    (hfault : getFaultById env s.pack s.faultId = some fault) :
    dtBackHandler env st mid
      = (match (popDtHistory st).1 with
         | none =>
           ((showFaultCard (backAlignMsg (popDtHistory st).2 mid) mid s.pack fault).1,
            [(showFaultCard (backAlignMsg (popDtHistory st).2 mid) mid s.pack fault).2])
         | some prevNode =>
           renderYamlDecisionNode env renderFuel
             (backAlignMsg (popDtHistory st).2 mid) mid s.pack fault prevNode) := by
  unfold dtBackHandler
  rw [getActiveDtState_some st s mid hdt]
  dsimp only
  rw [if_neg (by simp [hp, hfid]), hfault]

/-- `popDtHistory` on a short history: `null`, state untouched. -/
theorem popDtHistory_short (st : ChatState) (s : DtSession)
    (hdt : st.dt = some s) (hlen : s.history.length ≤ 1) :
    popDtHistory st = (none, st) := by
  unfold popDtHistory
  rw [hdt]
  dsimp only
  rw [if_pos hlen]

/-- `popDtHistory` on a history of length at least two: drops the top,
stores the shortened history, and returns the new top (which is `null`
when that top is the empty string). -/
theorem popDtHistory_long (st : ChatState) (s : DtSession)
    (hdt : st.dt = some s) (hlen : ¬ s.history.length ≤ 1) :
    popDtHistory st
      = ((match s.history.dropLast.getLast? with
          | none => none
          | some l => if truthy l then some l else none),
         setDt st none none (some s.history.dropLast) none) := by
  unfold popDtHistory
  rw [hdt]
  dsimp only
  rw [if_neg hlen]

/-- The back-alignment step also preserves the rate-limit timestamp. -/
theorem backAlignMsg_rlLast (st : ChatState) (mid : Option Nat) :
    (backAlignMsg st mid).rlLast = st.rlLast := by
  unfold backAlignMsg
  cases mid with
  | none => rfl
  | some m =>
    cases hm : st.dtMsg m with
    | none => simp [hm]
    | some ms =>
      by_cases hl : 1 < ms.history.length
      · simp [hm, hl, setDtForMessage_rlLast]
      · simp [hm, hl]

/-- history length after `dt:bk` on an active, truthy session with an
existing fault whose stored history entries are truthy non-tokens:
exactly `max (0, priorLength - 1)` (which is `priorLength - 1` in `Nat`). -/
theorem dtBack_history_len (env : Env) (st : ChatState) (mid : Option Nat)
    (s : DtSession) (fault : Fault)
    (hdt : st.dt = some s)
    (hp : truthy s.pack = true) (hfid : truthy s.faultId = true)
    (hfault : getFaultById env s.pack s.faultId = some fault)
    (hhist : ∀ x ∈ s.history, truthy x = true ∧ notRouteTok x ∧ notMenuTok x) :
    (dtBackHandler env st mid).1.dt.map (fun u => u.history.length)
      = some (s.history.length - 1) := by
  rw [dtBack_unfold env st mid s fault hdt hp hfid hfault]
  by_cases hlen : s.history.length ≤ 1
  · rw [popDtHistory_short st s hdt hlen]
    have hcard : (showFaultCard (backAlignMsg st mid) mid s.pack fault).1.dt
        = some ⟨s.pack, fault.id, [], mid⟩ := by
      simp [showFaultCard, setDtForMessage_dt, setDt]
    dsimp only
    rw [hcard]
    simp
    omega
  · rw [popDtHistory_long st s hdt hlen]
    have hne : s.history.dropLast ≠ [] := by
      have hld := s.history.length_dropLast
      intro hnil
      rw [hnil] at hld
      simp at hld
      omega
    have hlast : s.history.dropLast.getLast? = some (s.history.dropLast.getLast hne) :=
      List.getLast?_eq_getLast _ hne
    set l := s.history.dropLast.getLast hne with hldef
    have hmem : l ∈ s.history := s.history.dropLast_subset (List.getLast_mem hne)
    obtain ⟨hlt, hlr, hlm⟩ := hhist l hmem
    rw [hlast]
    dsimp only
    rw [if_pos hlt]
    dsimp only
    have hdt2 : (backAlignMsg (setDt st none none (some s.history.dropLast) none) mid).dt
        = some ⟨s.pack, s.faultId, s.history.dropLast, s.messageId⟩ := by
      rw [backAlignMsg_dt]
      simp [setDt, hdt]
    rw [show renderFuel = 2 + 1 from rfl]
    cases hnode : treeNodeLookup fault l with
    | none =>
      rw [render_notfound env _ mid s.pack fault l 2 hlr hlm hnode]
      rw [show ((backAlignMsg (setDt st none none (some s.history.dropLast) none) mid,
            [nodeNotFoundMsg s.pack l]).1.dt) = _ from hdt2]
      simp [List.length_dropLast]
    | some nd =>
      rw [render_found_dt_eq env _ mid s.pack fault l 2 nd
            ⟨s.pack, s.faultId, s.history.dropLast, s.messageId⟩ hdt2 hlr hlm hnode]
      have hj : jsLastStr s.history.dropLast = l := by
        unfold jsLastStr
        rw [hlast]
      rw [hj, if_pos rfl]
      simp [List.length_dropLast]

/-- history length after rendering a genuine non-token node `n` (not the
literal string `undefined`): unchanged when `n` is the previous top,
incremented otherwise. -/
theorem render_history_len (env : Env) (st : ChatState) (mid : Option Nat)
    (pack : Str) (fault : Fault) (nodeId : Str) (f : Nat) (nd : DtNode)
    (s : DtSession) (hdt : st.dt = some s)
    (hr : notRouteTok nodeId) (hm : notMenuTok nodeId)
    (hnu : nodeId ≠ "undefined".toList)
    (hnd : treeNodeLookup fault nodeId = some nd) :
    (renderYamlDecisionNode env (f + 1) st mid pack fault nodeId).1.dt.map
        (fun u => u.history.length)
      = some (if s.history.getLast? = some nodeId then s.history.length
              else s.history.length + 1) := by
  rw [render_found_dt_eq env st mid pack fault nodeId f nd s hdt hr hm hnd]
  by_cases hc : s.history.getLast? = some nodeId
  · have hj : jsLastStr s.history = nodeId := by
      unfold jsLastStr; rw [hc]
    simp [hj, hc]
  · have hj : ¬ jsLastStr s.history = nodeId := by
      unfold jsLastStr
      cases hg : s.history.getLast? with
      | none =>
        dsimp only
        exact fun hh => hnu hh.symm
      | some u =>
        dsimp only
        intro hh
        exact hc (by rw [hg, hh])
    simp [hj, hc]

/- ===================== C1 ===================== -/

/-- C1 counterexample: `pushDtHistory` compares
`String(last) !== String(nodeId)`, and `String(undefined)` is the string
`"undefined"`, so rendering a genuine node literally named `undefined`
onto an empty history does not push it: prior length is `0`, the node is
not the previous top (there is none), the claim demands length `1`, but
the length stays `0`. -/
def faultFU : Fault :=
  ⟨"FU".toList, "Fault U".toList, none, none,
   some ⟨some "undefined".toList, some [("undefined".toList, nodeN2)]⟩⟩

/-- Environment whose Autel pack carries `faultFU`. -/
def envFU : Env := ⟨[], [faultFU], [], [], fun _ => []⟩

/-- A session on `faultFU` with empty history. -/
def stateFU : ChatState :=
  ⟨some ⟨"autel".toList, "FU".toList, [], none⟩, emptyMsgStore, false, 0⟩

theorem c1_counterexample :
    (treeNodeLookup faultFU "undefined".toList).isSome = true
    ∧ stateFU.dt.map (fun u => u.history.length) = some 0
    ∧ (renderYamlDecisionNode envFU 1 stateFU none "autel".toList faultFU
         "undefined".toList).1.dt.map (fun u => u.history.length) = some 0 := by
  decide

/-- C1 (amended): on a session with an active, existing fault whose
stored history entries are truthy non-token node ids:
(a) after `goBack` the history length is exactly `max (0, priorLength - 1)`;
(b) after `renderNode` on a genuine non-token node `n` of the fault's
tree, with `n` not the literal string `"undefined"`, the history length
is `priorLength` when `n` equals the previous top and `priorLength + 1`
otherwise; and (c) rendering the same node twice in a row leaves the
length unchanged after the second call (the push is idempotent). -/
theorem c1_history_invariant (env : Env) (st : ChatState) (mid : Option Nat)
    (s : DtSession) (fault : Fault) (f : Nat)
    (hdt : st.dt = some s)
    (hp : truthy s.pack = true) (hfid : truthy s.faultId = true)
    (hfault : getFaultById env s.pack s.faultId = some fault)
    (hhist : ∀ x ∈ s.history, truthy x = true ∧ notRouteTok x ∧ notMenuTok x) :
    ((dtBackHandler env st mid).1.dt.map (fun u => u.history.length)
        = some (s.history.length - 1))
    ∧ (∀ nodeId nd, notRouteTok nodeId → notMenuTok nodeId →
        nodeId ≠ "undefined".toList → treeNodeLookup fault nodeId = some nd →
        ((renderYamlDecisionNode env (f + 1) st mid s.pack fault nodeId).1.dt.map
            (fun u => u.history.length)
          = some (if s.history.getLast? = some nodeId then s.history.length
                  else s.history.length + 1))
        ∧ ((renderYamlDecisionNode env (f + 1)
              (renderYamlDecisionNode env (f + 1) st mid s.pack fault nodeId).1
              mid s.pack fault nodeId).1.dt.map (fun u => u.history.length)
            = (renderYamlDecisionNode env (f + 1) st mid s.pack fault nodeId).1.dt.map
                (fun u => u.history.length))) := by
  refine ⟨dtBack_history_len env st mid s fault hdt hp hfid hfault hhist, ?_⟩
  intro nodeId nd hr hm hnu hnd
  refine ⟨render_history_len env st mid s.pack fault nodeId f nd s hdt hr hm hnu hnd, ?_⟩
  have h1 := render_found_dt_eq env st mid s.pack fault nodeId f nd s hdt hr hm hnd
  have hlast : (if jsLastStr s.history = nodeId then s.history
                else s.history ++ [nodeId]).getLast? = some nodeId := by
    by_cases hc : jsLastStr s.history = nodeId
    · rw [if_pos hc]
      unfold jsLastStr at hc
      cases hg : s.history.getLast? with
      | none =>
        rw [hg] at hc
        dsimp only at hc
        exact absurd hc.symm hnu
      | some u =>
        rw [hg] at hc
        dsimp only at hc
        rw [hc]
    · rw [if_neg hc, List.getLast?_concat]
  have h2 := render_history_len env
    (renderYamlDecisionNode env (f + 1) st mid s.pack fault nodeId).1 mid
    s.pack fault nodeId f nd
    ⟨s.pack, fault.id,
     if jsLastStr s.history = nodeId then s.history else s.history ++ [nodeId], mid⟩
    h1 hr hm hnu hnd
  rw [h2, h1]
  simp [hlast]

/-- C1 witness: on the sample session at `[n1]`, `goBack` leaves length
`0`, and rendering `n2` (not the top) yields length `2`. -/
theorem c1_history_invariant_witness :
    ((dtBackHandler sampleEnv stateN1 none).1.dt.map (fun u => u.history.length)
        = some 0)
    ∧ ((renderYamlDecisionNode sampleEnv (0 + 1) stateN1 none sessionN1.pack faultF1
          "n2".toList).1.dt.map (fun u => u.history.length) = some 2) := by
  have h := c1_history_invariant sampleEnv stateN1 none sessionN1 faultF1 0 rfl
    (by decide) (by decide) (by decide) (by decide)
  refine ⟨h.1, ?_⟩
  have h2 := (h.2 "n2".toList nodeN2 (by decide) (by decide) (by decide) (by decide)).1
  rw [h2]
  decide

/- ===================== C4 ===================== -/

/-- The dispatcher routes `dt:bk` to the back handler once the rate-limit
window has passed (updating the window anchor first). -/
theorem handle_dtbk (env : Env) (st : ChatState) (mid : Option Nat) (now : Nat)
    (h : ¬ (now - st.rlLast < 250)) :
    handleCallback env st mid now "dt:bk".toList
      = dtBackHandler env { st with rlLast := now } mid := by
  unfold handleCallback
  rw [if_neg h]
  rfl

/-- `showFaultCard` keeps the rate-limit timestamp. -/
theorem showFaultCard_rlLast (st : ChatState) (mid : Option Nat)
    (pack : Str) (fault : Fault) :
    (showFaultCard st mid pack fault).1.rlLast = st.rlLast := by
  unfold showFaultCard
  dsimp only
  rw [setDtForMessage_rlLast]
  rfl

/-- `showFaultCard` binds the session to the fault with empty history. -/
theorem showFaultCard_dt (st : ChatState) (mid : Option Nat)
    (pack : Str) (fault : Fault) :
    (showFaultCard st mid pack fault).1.dt
      = some ⟨pack, fault.id, [], mid⟩ := by
  unfold showFaultCard
  dsimp only
  rw [setDtForMessage_dt]
  rfl

/-- C4: on a session with an active fault and exactly one history entry,
`goBack` yields the Fault Card view (not a tree node) and clears the
history to empty; a subsequent `goBack` again yields the Fault Card
rather than an error. -/
theorem c4_back_terminal (env : Env) (st : ChatState) (mid : Option Nat)
    (s : DtSession) (fault : Fault) (now now2 : Nat)
    (hdt : st.dt = some s)
    (hp : truthy s.pack = true) (hfid : truthy s.faultId = true)
    (hlen : s.history.length = 1)
    (hfault : getFaultById env s.pack s.faultId = some fault)
    (hrl : 250 ≤ now - st.rlLast) (hrl2 : 250 ≤ now2 - now) :
    ((handleCallback env st mid now "dt:bk".toList).2
        = [(showFaultCard st mid s.pack fault).2])
    ∧ ((handleCallback env st mid now "dt:bk".toList).1.dt
        = some ⟨s.pack, fault.id, [], mid⟩)
    ∧ ((handleCallback env (handleCallback env st mid now "dt:bk".toList).1 mid now2
          "dt:bk".toList).2
        = [(showFaultCard st mid s.pack fault).2]) := by
  have hst1 : ({ st with rlLast := now } : ChatState).dt = some s := hdt
  have hid := getFaultById_id env s.pack s.faultId fault hfault
  rw [handle_dtbk env st mid now (by omega),
      dtBack_unfold env { st with rlLast := now } mid s fault hst1 hp hfid hfault,
      popDtHistory_short _ s hst1 (by omega)]
  dsimp only
  refine ⟨rfl, showFaultCard_dt _ mid s.pack fault, ?_⟩
  set stA := (showFaultCard (backAlignMsg { st with rlLast := now } mid) mid s.pack fault).1
    with hstA
  have hdtA : stA.dt = some ⟨s.pack, fault.id, [], mid⟩ :=
    showFaultCard_dt _ mid s.pack fault
  have hrlA : stA.rlLast = now := by
    rw [hstA, showFaultCard_rlLast, backAlignMsg_rlLast]
  have hdtA2 : ({ stA with rlLast := now2 } : ChatState).dt
      = some ⟨s.pack, fault.id, [], mid⟩ := hdtA
  have hfault2 : getFaultById env s.pack fault.id = some fault := by
    rw [hid]; exact hfault
  rw [handle_dtbk env stA mid now2 (by omega),
      dtBack_unfold env { stA with rlLast := now2 } mid ⟨s.pack, fault.id, [], mid⟩ fault
        hdtA2 hp (by rw [hid]; exact hfid) hfault2,
      popDtHistory_short _ ⟨s.pack, fault.id, [], mid⟩ hdtA2 (by simp)]
  rfl

/-- C4 witness on the sample session (history `[n1]`). -/
theorem c4_back_terminal_witness :
    ((handleCallback sampleEnv stateN1 none 10000 "dt:bk".toList).2
        = [(showFaultCard stateN1 none "autel".toList faultF1).2])
    ∧ ((handleCallback sampleEnv stateN1 none 10000 "dt:bk".toList).1.dt
        = some ⟨"autel".toList, faultF1.id, [], none⟩)
    ∧ ((handleCallback sampleEnv
          (handleCallback sampleEnv stateN1 none 10000 "dt:bk".toList).1 none 10300
          "dt:bk".toList).2
        = [(showFaultCard stateN1 none "autel".toList faultF1).2]) :=
  c4_back_terminal sampleEnv stateN1 none sessionN1 faultF1 10000 10300 rfl
    (by decide) (by decide) (by decide) (by decide) (by decide) (by decide)

/- ===================== C6 ===================== -/

/-- A JS array lookup at or beyond the length is `undefined`. -/
theorem jsIndex_none {α : Type} (l : List α) (i : Int)
    (h : (l.length : Int) ≤ i) : jsIndex l i = none := by
  cases i with
  | ofNat n =>
    unfold jsIndex
    have h2 : (l.length : Int) ≤ (n : Int) := h
    exact List.get?_eq_none.mpr (by exact_mod_cast h2)
  | negSucc n => rfl

/-- Unfolding `dt:o:` on an active truthy session up to the option
lookup. -/
theorem dtOption_unfold (env : Env) (st : ChatState) (mid : Option Nat)
    (data : Str) (s : DtSession) (fault : Fault) (t : DecisionTree)
    (ns : List (Str × DtNode)) (sn : Str) (i : Int)
    (hdt : st.dt = some s)
    (hp : truthy s.pack = true) (hfid : truthy s.faultId = true)
    (hidx : jsNumberInt ((jsSplit ':' data).getD 2 []) = some i)
    (hfault : getFaultById env s.pack s.faultId = some fault)
    (htr : fault.decision_tree = some t)
    (hns : t.nodes = some ns) (hsn : t.start_node = some sn)
    (hsnt : truthy sn = true) :
    dtOptionHandler env st mid data
      = (match (match jsIndex (currentOpts ns (currentNodeIdOf s sn)) i with
                | some opt => opt.next
                | none => none) with
         | none => (st, [⟨"⚠️ Option is missing a next node.".toList, []⟩])
         | some nx =>
           if ¬ truthy nx then (st, [⟨"⚠️ Option is missing a next node.".toList, []⟩])
           else renderYamlDecisionNode env renderFuel st mid s.pack fault nx) := by
  unfold dtOptionHandler
  rw [getActiveDtState_some st s mid hdt]
  dsimp only
  rw [if_neg (by simp [hp, hfid]), hidx, hfault]
  simp only [htr, hns, hsn]
  rw [if_neg (by simp [hsnt])]

/-- C6: on an active session whose current node (top of history, or the
tree's start node when the history is empty) declares `k` options, an
advance whose option index is at or beyond `k` — or whose selected
option's `next` target is missing or empty — emits the "option is
missing a next node" error view and returns the state unchanged (the
session history in particular). -/
theorem c6_unknown_option (env : Env) (st : ChatState) (mid : Option Nat)
    (data : Str) (s : DtSession) (fault : Fault) (t : DecisionTree)
    (ns : List (Str × DtNode)) (sn : Str) (i : Int)
    (hdt : st.dt = some s)
    (hp : truthy s.pack = true) (hfid : truthy s.faultId = true)
    (hidx : jsNumberInt ((jsSplit ':' data).getD 2 []) = some i)
    (hfault : getFaultById env s.pack s.faultId = some fault)
    (htr : fault.decision_tree = some t)
    (hns : t.nodes = some ns) (hsn : t.start_node = some sn)
    (hsnt : truthy sn = true)
    (hbad : ((currentOpts ns (currentNodeIdOf s sn)).length : Int) ≤ i
        ∨ (match jsIndex (currentOpts ns (currentNodeIdOf s sn)) i with
           | some opt => opt.next = none ∨ opt.next = some []
           | none => False)) :
    dtOptionHandler env st mid data
      = (st, [⟨"⚠️ Option is missing a next node.".toList, []⟩]) := by
  rw [dtOption_unfold env st mid data s fault t ns sn i hdt hp hfid hidx hfault htr hns
      hsn hsnt]
  rcases hbad with hge | hopt
  · rw [jsIndex_none _ i hge]
  · cases hoi : jsIndex (currentOpts ns (currentNodeIdOf s sn)) i with
    | none => rfl
    | some opt =>
      rw [hoi] at hopt
      dsimp only at hopt
      dsimp only
      rcases hopt with hnone | hempty
      · rw [hnone]
      · rw [hempty]
        dsimp only
        rw [if_pos (by decide)]

/-- C6 witness: on the sample session at `n1` (one declared option),
`dt:o:5` reports the missing target and leaves the state unchanged. -/
theorem c6_unknown_option_witness :
    dtOptionHandler sampleEnv stateN1 none "dt:o:5".toList
      = (stateN1, [⟨"⚠️ Option is missing a next node.".toList, []⟩]) :=
  c6_unknown_option sampleEnv stateN1 none "dt:o:5".toList sessionN1 faultF1 treeF1
    (treeF1.nodes.getD []) "n1".toList 5 rfl (by decide) (by decide) (by decide)
    (by decide) rfl rfl rfl (by decide) (Or.inl (by decide))

/- ===================== C2 ===================== -/

/-- The dispatcher routes `dt:o:`-prefixed data to the advance handler
(the `:menu` / `:all` suffix guards are the only earlier branches not
decided by the `dt:o:` prefix itself). -/
theorem handle_dto (env : Env) (st : ChatState) (mid : Option Nat) (now : Nat)
    (rest : Str)
    (hrl : ¬ (now - st.rlLast < 250))
    (hm : jsEndsWith ":menu".toList ("dt:o:".toList ++ rest) = false)
    (ha : jsEndsWith ":all".toList ("dt:o:".toList ++ rest) = false) :
    handleCallback env st mid now ("dt:o:".toList ++ rest)
      = dtOptionHandler env { st with rlLast := now } mid ("dt:o:".toList ++ rest) := by
  have hm2 := hm
  have ha2 := ha
  simp at hm2 ha2
  unfold handleCallback
  rw [if_neg hrl]
  simp [hm2, ha2, jsStartsWith]

/-- Promotion in `getActiveDtState`: with no session-level state and a
message-bound entry for the originating message, that entry becomes the
session state (the merge leaves `messageId` at its default `null`). -/
theorem getActiveDtState_promote (st : ChatState) (M : Nat) (ms : MsgState)
    (hdt : st.dt = none) (hg : st.dtMsg M = some ms) :
    getActiveDtState st (some M)
      = (some ⟨ms.pack, ms.faultId, ms.history, none⟩,
         setDt st (some ms.pack) (some ms.faultId) (some ms.history) none) := by
  unfold getActiveDtState
  rw [hdt]
  dsimp only
  rw [hg]

/-- Rendering is insensitive to the `messageId` field of the session
entry: same emitted messages, same session projection (pack, fault,
history), same message-bound store. -/
theorem render_mid_insensitive (env : Env) (f : Nat) (mid : Option Nat)
    (pack : Str) (fault : Fault) (nodeId : Str) (p q : Str) (h : List Str)
    (m1 m2 : Option Nat) (g : Nat → Option MsgState) (rep : Bool) (rl : Nat) :
    ((renderYamlDecisionNode env f ⟨some ⟨p, q, h, m1⟩, g, rep, rl⟩ mid pack fault nodeId).2
        = (renderYamlDecisionNode env f ⟨some ⟨p, q, h, m2⟩, g, rep, rl⟩ mid pack fault nodeId).2)
    ∧ ((renderYamlDecisionNode env f ⟨some ⟨p, q, h, m1⟩, g, rep, rl⟩ mid pack fault nodeId).1.dt.map
          (fun u => (u.pack, u.faultId, u.history))
        = (renderYamlDecisionNode env f ⟨some ⟨p, q, h, m2⟩, g, rep, rl⟩ mid pack fault nodeId).1.dt.map
          (fun u => (u.pack, u.faultId, u.history)))
    ∧ ((renderYamlDecisionNode env f ⟨some ⟨p, q, h, m1⟩, g, rep, rl⟩ mid pack fault nodeId).1.dtMsg
        = (renderYamlDecisionNode env f ⟨some ⟨p, q, h, m2⟩, g, rep, rl⟩ mid pack fault nodeId).1.dtMsg) := by
  cases f with
  | zero => exact ⟨rfl, rfl, rfl⟩
  | succ f =>
    unfold renderYamlDecisionNode
    by_cases hroute : nodeId = routeTokOffline ∨ nodeId = routeTokOvertemp
    · rw [if_pos hroute, if_pos hroute]
      cases hrf : getFaultById env "general_dc".toList nodeId with
      | none => simp [hrf]
      | some rf =>
        simp only [hrf]
        cases htr : rf.decision_tree with
        | none => simp [htr]
        | some t =>
          simp only [htr]
          cases hsn : t.start_node with
          | none => simp [hsn]
          | some s0 =>
            simp only [hsn]
            by_cases hs : truthy s0 = true
            · rw [if_neg (by simp [hs]), if_neg (by simp [hs])]
              simp [setDt]
            · rw [if_pos (by simpa using hs), if_pos (by simpa using hs)]
              simp
    · rw [if_neg hroute, if_neg hroute]
      by_cases h1 : nodeId = menuTokGeneralDc
      · rw [if_pos h1, if_pos h1]; simp [showGeneralDcMenu, resetDt]
      · rw [if_neg h1, if_neg h1]
        by_cases h2 : nodeId = menuTokKempower
        · rw [if_pos h2, if_pos h2]; simp [showKempowerMenu, resetDt]
        · rw [if_neg h2, if_neg h2]
          by_cases h3 : nodeId = menuTokAutel
          · rw [if_pos h3, if_pos h3]; simp [showAutelMenu, resetDt]
          · rw [if_neg h3, if_neg h3]
            by_cases h4 : nodeId = menuTokTritium
            · rw [if_pos h4, if_pos h4]; simp [showTritiumMenu, resetDt]
            · rw [if_neg h4, if_neg h4]
              cases hnd : treeNodeLookup fault nodeId with
              | none => simp [hnd]
              | some nd =>
                simp only [hnd]
                simp [setDt]

/-- C2: with session-level state cleared but message-bound state present
for the originating message `M`, an advance (`dt:o:<index>`) arriving
from `M` falls back to that message-bound state, promotes it, and
produces the same sent messages, the same resulting session projection
(pack, fault, history), and the same message-bound store as it would
have produced had the session-level state never been cleared. -/
theorem c2_recovery_fallback (env : Env) (g : Nat → Option MsgState) (M : Nat)
    (ms : MsgState) (midB : Option Nat) (rep : Bool) (rl now : Nat) (rest : Str)
    (hg : g M = some ms)
    (hrl : 250 ≤ now - rl)
    (hm : jsEndsWith ":menu".toList ("dt:o:".toList ++ rest) = false)
    (ha : jsEndsWith ":all".toList ("dt:o:".toList ++ rest) = false) :
    ((handleCallback env ⟨none, g, rep, rl⟩ (some M) now ("dt:o:".toList ++ rest)).2
        = (handleCallback env ⟨some ⟨ms.pack, ms.faultId, ms.history, midB⟩, g, rep, rl⟩
            (some M) now ("dt:o:".toList ++ rest)).2)
    ∧ ((handleCallback env ⟨none, g, rep, rl⟩ (some M) now ("dt:o:".toList ++ rest)).1.dt.map
          (fun u => (u.pack, u.faultId, u.history))
        = (handleCallback env ⟨some ⟨ms.pack, ms.faultId, ms.history, midB⟩, g, rep, rl⟩
            (some M) now ("dt:o:".toList ++ rest)).1.dt.map
          (fun u => (u.pack, u.faultId, u.history)))
    ∧ ((handleCallback env ⟨none, g, rep, rl⟩ (some M) now ("dt:o:".toList ++ rest)).1.dtMsg
        = (handleCallback env ⟨some ⟨ms.pack, ms.faultId, ms.history, midB⟩, g, rep, rl⟩
            (some M) now ("dt:o:".toList ++ rest)).1.dtMsg) := by
  rw [handle_dto env ⟨none, g, rep, rl⟩ (some M) now rest (by simp; omega) hm ha,
      handle_dto env ⟨some ⟨ms.pack, ms.faultId, ms.history, midB⟩, g, rep, rl⟩ (some M)
        now rest (by simp; omega) hm ha]
  unfold dtOptionHandler
  rw [getActiveDtState_promote ⟨none, g, rep, now⟩ M ms rfl hg,
      getActiveDtState_some ⟨some ⟨ms.pack, ms.faultId, ms.history, midB⟩, g, rep, now⟩
        ⟨ms.pack, ms.faultId, ms.history, midB⟩ (some M) rfl]
  dsimp only [setDt, currentNodeIdOf]
  by_cases ht : (truthy ms.pack = true ∧ truthy ms.faultId = true)
  · rw [if_neg (not_not_intro ht), if_neg (not_not_intro ht)]
    cases hn : jsNumberInt ((jsSplit ':' ("dt:o:".toList ++ rest)).getD 2 []) with
    | none => simp [hn]
    | some idx =>
      simp only [hn]
      cases hf : getFaultById env ms.pack ms.faultId with
      | none => simp [hf]
      | some fault =>
        simp only [hf]
        cases htr : fault.decision_tree with
        | none => simp [htr]
        | some t =>
          simp only [htr]
          cases hns : t.nodes with
          | none => cases hsn : t.start_node <;> simp [hns, hsn]
          | some ns =>
            cases hsn : t.start_node with
            | none => simp [hns, hsn]
            | some sn =>
              simp only [hns, hsn]
              by_cases hst : truthy sn = true
              · rw [if_neg (not_not_intro hst), if_neg (not_not_intro hst)]
                cases hoi : jsIndex (currentOpts ns
                    (if ms.history.isEmpty then sn else ms.history.getLastD [])) idx with
                | none => simp [hoi]
                | some opt =>
                  simp only [hoi]
                  cases hnx : opt.next with
                  | none => simp [hnx]
                  | some nx =>
                    simp only [hnx]
                    by_cases hnt : truthy nx = true
                    · rw [if_neg (not_not_intro hnt), if_neg (not_not_intro hnt)]
                      exact render_mid_insensitive env renderFuel (some M) ms.pack fault nx
                        ms.pack ms.faultId ms.history none midB g rep now
                    · rw [if_pos hnt, if_pos hnt]
                      simp
              · rw [if_pos hst, if_pos hst]
                simp
  · rw [if_pos ht, if_pos ht]
    simp

/-- Sample message-bound state for the recovery witness. -/
def msW : MsgState := ⟨"autel".toList, "F1".toList, ["n1".toList]⟩

/-- Sample message-bound store holding `msW` for message 7. -/
def msStoreW : Nat → Option MsgState := fun k => if k = 7 then some msW else none

/-- C2 witness: advance `dt:o:0` from message 7 after a session reset
behaves like the un-reset session. -/
theorem c2_recovery_fallback_witness :
    ((handleCallback sampleEnv ⟨none, msStoreW, false, 0⟩ (some 7) 10000
        ("dt:o:".toList ++ "0".toList)).2
      = (handleCallback sampleEnv
          ⟨some ⟨msW.pack, msW.faultId, msW.history, none⟩, msStoreW, false, 0⟩
          (some 7) 10000 ("dt:o:".toList ++ "0".toList)).2)
    ∧ ((handleCallback sampleEnv ⟨none, msStoreW, false, 0⟩ (some 7) 10000
          ("dt:o:".toList ++ "0".toList)).1.dt.map
          (fun u => (u.pack, u.faultId, u.history))
        = (handleCallback sampleEnv
            ⟨some ⟨msW.pack, msW.faultId, msW.history, none⟩, msStoreW, false, 0⟩
            (some 7) 10000 ("dt:o:".toList ++ "0".toList)).1.dt.map
          (fun u => (u.pack, u.faultId, u.history)))
    ∧ ((handleCallback sampleEnv ⟨none, msStoreW, false, 0⟩ (some 7) 10000
          ("dt:o:".toList ++ "0".toList)).1.dtMsg
        = (handleCallback sampleEnv
            ⟨some ⟨msW.pack, msW.faultId, msW.history, none⟩, msStoreW, false, 0⟩
            (some 7) 10000 ("dt:o:".toList ++ "0".toList)).1.dtMsg) :=
  c2_recovery_fallback sampleEnv msStoreW 7 msW none false 0 10000 "0".toList
    rfl (by omega) (by decide) (by decide)

/- ===================== C10 ===================== -/

theorem getActiveDtState_rlLast (st : ChatState) (mid : Option Nat) :
    (getActiveDtState st mid).2.rlLast = st.rlLast := by
  unfold getActiveDtState
  cases hdt : st.dt with
  | some s => simp [hdt]
  | none =>
    simp only [hdt]
    cases mid with
    | none => rfl
    | some m =>
      cases hg : st.dtMsg m with
      | none => simp [hg]
      | some ms => simp [hg, setDt]

theorem pushDtHistory_rlLast (st : ChatState) (n : Str) :
    (pushDtHistory st n).rlLast = st.rlLast := by
  unfold pushDtHistory
  cases hdt : st.dt with
  | none => simp [hdt]
  | some s =>
    simp only [hdt]
    split <;> simp [setDt]

theorem popDtHistory_rlLast (st : ChatState) :
    (popDtHistory st).2.rlLast = st.rlLast := by
  unfold popDtHistory
  cases hdt : st.dt with
  | none => simp [hdt]
  | some s =>
    simp only [hdt]
    by_cases hl : s.history.length ≤ 1
    · simp [hl]
    · simp [hl, setDt]

set_option maxHeartbeats 2000000 in
theorem render_rlLast (env : Env) : ∀ (f : Nat) (st : ChatState) (mid : Option Nat)
    (pack : Str) (fault : Fault) (nodeId : Str),
    (renderYamlDecisionNode env f st mid pack fault nodeId).1.rlLast = st.rlLast := by
  intro f
  induction f with
  | zero => intro st mid pack fault nodeId; rfl
  | succ f ih =>
    intro st mid pack fault nodeId
    unfold renderYamlDecisionNode
    dsimp only
    repeat' split
    all_goals simp [ih, setDtForMessage_rlLast, setDt, pushDtHistory_rlLast,
      showGeneralDcMenu, showKempowerMenu, showAutelMenu, showTritiumMenu, resetDt]

theorem dtStart_rlLast (env : Env) (st : ChatState) (mid : Option Nat) :
    (dtStartHandler env st mid).1.rlLast = st.rlLast := by
  unfold dtStartHandler
  dsimp only
  repeat' split
  all_goals simp [getActiveDtState_rlLast, render_rlLast, setDtForMessage_rlLast, setDt]

theorem dtOption_rlLast (env : Env) (st : ChatState) (mid : Option Nat) (data : Str) :
    (dtOptionHandler env st mid data).1.rlLast = st.rlLast := by
  unfold dtOptionHandler
  dsimp only
  repeat' split
  all_goals simp [getActiveDtState_rlLast, render_rlLast, setDt]

theorem dtBack_rlLast (env : Env) (st : ChatState) (mid : Option Nat) :
    (dtBackHandler env st mid).1.rlLast = st.rlLast := by
  unfold dtBackHandler
  dsimp only
  repeat' split
  all_goals simp [getActiveDtState_rlLast, render_rlLast, popDtHistory_rlLast,
    backAlignMsg_rlLast, showFaultCard_rlLast, showManufacturerMenu, resetDt]

theorem dtMenu_rlLast (env : Env) (st : ChatState) (mid : Option Nat) :
    (dtMenuHandler env st mid).1.rlLast = st.rlLast := by
  unfold dtMenuHandler
  dsimp only
  repeat' split
  all_goals simp [getActiveDtState_rlLast, showManufacturerMenu, showGeneralDcMenu,
    showKempowerMenu, showTritiumMenu, showAutelMenu, resetDt]

theorem standardFault_rlLast (env : Env) (st : ChatState) (mid : Option Nat) (data : Str) :
    (standardFaultHandler env st mid data).1.rlLast = st.rlLast := by
  unfold standardFaultHandler
  dsimp only
  repeat' split
  all_goals simp [resetDt, showFaultCard_rlLast]

theorem legacyFault_rlLast (env : Env) (st : ChatState) (mid : Option Nat)
    (pack data : Str) :
    (legacyFaultHandler env st mid pack data).1.rlLast = st.rlLast := by
  unfold legacyFaultHandler
  dsimp only
  repeat' split
  all_goals simp [resetDt, showFaultCard_rlLast]

set_option maxHeartbeats 4000000 in
/-- A processed callback re-anchors the rate-limit window at its own
arrival time, whatever the action was. -/
theorem handleCallback_rlLast (env : Env) (st : ChatState) (mid : Option Nat)
    (now : Nat) (data : Str) (h : ¬ (now - st.rlLast < 250)) :
    (handleCallback env st mid now data).1.rlLast = now := by
  unfold handleCallback
  rw [if_neg h]
  by_cases h1 : data = "noop".toList
  · rw [if_pos h1]
  · rw [if_neg h1]
    by_cases h2 : data = "reset".toList ∨ data = "menu:mfr".toList
    · rw [if_pos h2]; simp [showManufacturerMenu, resetDt, clearReport]
    · rw [if_neg h2]
      by_cases h3 : data = "r:new".toList
      · rw [if_pos h3]; simp [startReport, resetDt, clearReport]
      · rw [if_neg h3]
        by_cases h4 : jsStartsWith "mfr:".toList data = true
        · rw [if_pos h4]
          dsimp only
          split_ifs <;> simp [showGeneralDcMenu, showAutelMenu, showKempowerMenu,
            showTritiumMenu, showManufacturerMenu, resetDt, clearReport]
        · rw [if_neg h4]
          by_cases h5 : jsEndsWith ":menu".toList data = true
          · rw [if_pos h5]
            dsimp only
            split_ifs <;> simp [showGeneralDcMenu, showAutelMenu, showKempowerMenu,
              showTritiumMenu, resetDt, clearReport]
          · rw [if_neg h5]
            by_cases h6 : jsEndsWith ":all".toList data = true
            · rw [if_pos h6]
              dsimp only
              split_ifs <;> simp [showGeneralDcAllMenu, showAutelMenu, showKempowerMenu,
                showTritiumMenu, resetDt, clearReport]
            · rw [if_neg h6]
              by_cases h7 : jsStartsWith "RF|".toList data = true
              · rw [if_pos h7]
                rcases hf : getFaultById env ((jsSplit '|' data).getD 1 [])
                    ((jsSplit '|' data).getD 2 []) with _ | fault
                · dsimp only
                  rw [hf]
                · dsimp only
                  rw [hf]
                  simp [startReportFromFault, resetDt, clearReport]
              · rw [if_neg h7]
                by_cases h8 : data = "dt:start".toList
                · rw [if_pos h8, dtStart_rlLast]
                · rw [if_neg h8]
                  by_cases h9 : jsStartsWith "dt:o:".toList data = true
                  · rw [if_pos h9, dtOption_rlLast]
                  · rw [if_neg h9]
                    by_cases h10 : data = "dt:bk".toList
                    · rw [if_pos h10, dtBack_rlLast]
                    · rw [if_neg h10]
                      by_cases h11 : data = "dt:mn".toList
                      · rw [if_pos h11, dtMenu_rlLast]
                      · rw [if_neg h11]
                        by_cases h12 : strIncludes ":fault:".toList data = true
                        · rw [if_pos h12, standardFault_rlLast]
                        · rw [if_neg h12]
                          by_cases h13 : jsStartsWith "GENERAL_DC:".toList data = true
                          · rw [if_pos h13, legacyFault_rlLast]
                          · rw [if_neg h13]
                            by_cases h14 : jsStartsWith "AUTEL:".toList data = true
                            · rw [if_pos h14, legacyFault_rlLast]
                            · rw [if_neg h14]
                              by_cases h15 : jsStartsWith "KEMPOWER:".toList data = true
                              · rw [if_pos h15, legacyFault_rlLast]
                              · rw [if_neg h15]
                                by_cases h16 : jsStartsWith "TRITIUM:".toList data = true
                                · rw [if_pos h16, legacyFault_rlLast]
                                · rw [if_neg h16]

/-- Initial state for the C10 trace: a processed callback at t = 10000
has just anchored the rate-limit window. -/
def stC10a : ChatState := ⟨none, emptyMsgStore, false, 10000⟩

/-- C10 (counterexample).  The window is anchored at the last *processed*
callback, not at the last callback query: after a processed `reset` at
t = 10000, a second `reset` at t = 10200 is dropped, and a third at
t = 10400 — only 200 ms after the previous callback query — is processed
and answered, because the dropped query did not refresh the window. -/
theorem c10_counterexample :
    (10400 - 10200 < 250) ∧
    (handleCallback sampleEnv stC10a none 10200 "reset".toList).2 = [] ∧
    (handleCallback sampleEnv
        (handleCallback sampleEnv stC10a none 10200 "reset".toList).1
        none 10400 "reset".toList).2 ≠ [] := by
  decide

/-- C10 (amended).  A callback arriving less than 250 ms after the last
*processed* callback is dropped entirely — the state (including the
window anchor) is unchanged and no message is sent; a callback arriving
at or past the 250 ms mark is processed and re-anchors the window at its
own arrival time. -/
theorem c10_rate_limit (env : Env) (st : ChatState) (mid : Option Nat)
    (now : Nat) (data : Str) :
    (now - st.rlLast < 250 → handleCallback env st mid now data = (st, [])) ∧
    (¬ now - st.rlLast < 250 →
      (handleCallback env st mid now data).1.rlLast = now) := by
  constructor
  · intro hlt
    unfold handleCallback
    rw [if_pos hlt]
  · intro hge
    exact handleCallback_rlLast env st mid now data hge

theorem c10_rate_limit_witness :
    handleCallback sampleEnv stC10a none 10100 "reset".toList = (stC10a, []) ∧
    (handleCallback sampleEnv stC10a none 10400 "reset".toList).1.rlLast = 10400 :=
  ⟨(c10_rate_limit sampleEnv stC10a none 10100 "reset".toList).1 (by decide),
   (c10_rate_limit sampleEnv stC10a none 10400 "reset".toList).2 (by decide)⟩

/- ===================== C3 ===================== -/

/-- Whether an optional-chained route-target start node is safe: absent,
or present and not itself a route token (so one route hop suffices). -/
def routeStartNonRoute : Option Str → Bool
  | none => true
  | some s => decide (notRouteTok s)

/-- Both reserved route tokens resolve (when they resolve at all) to a
target fault whose truthy start node is not itself a route token; this
bounds the route recursion to one hop, as in the shipped packs. -/
abbrev routesOk (env : Env) : Prop :=
  routeStartNonRoute
      (dtStartOf (getFaultById env "general_dc".toList routeTokOffline)) = true ∧
  routeStartNonRoute
      (dtStartOf (getFaultById env "general_dc".toList routeTokOvertemp)) = true

/-- A route-token render whose target is missing a usable start node
(absent fault, absent tree, absent or falsy start) yields the route-miss
error view and leaves the state unchanged. -/
theorem render_route_miss (env : Env) (st : ChatState) (mid : Option Nat)
    (pack : Str) (fault : Fault) (f : Nat) (tok : Str)
    (htok : tok = routeTokOffline ∨ tok = routeTokOvertemp)
    (hds : dtStartOf (getFaultById env "general_dc".toList tok) = none) :
    renderYamlDecisionNode env (f + 1) st mid pack fault tok
      = (st, [⟨routeMissText tok, []⟩]) := by
  unfold renderYamlDecisionNode
  rw [if_pos htok]
  cases hrf : getFaultById env "general_dc".toList tok with
  | none => simp [hrf]
  | some rf =>
    simp only [hrf]
    rw [hrf] at hds
    cases htr : rf.decision_tree with
    | none => simp [htr]
    | some t =>
      simp only [htr]
      cases hsn : t.start_node with
      | none => simp [hsn]
      | some s =>
        simp only [hsn]
        have hns : truthy s = false := by
          cases hts : truthy s with
          | false => rfl
          | true => simp [dtStartOf, htr, hsn, hts] at hds
        simp [hns]

/-- A render of a non-route node id always yields a view (a nonempty
message list): menu tokens yield a menu, missing nodes the not-found
view, and present nodes the node card. -/
theorem render_nonroute_ne_nil (env : Env) (f : Nat) (st : ChatState)
    (mid : Option Nat) (pack : Str) (fault : Fault) (nodeId : Str)
    (h : notRouteTok nodeId) :
    (renderYamlDecisionNode env (f + 1) st mid pack fault nodeId).2 ≠ [] := by
  by_cases h3 : nodeId = menuTokGeneralDc
  · subst h3; rw [render_menu_generalDc]; simp
  · by_cases h4 : nodeId = menuTokKempower
    · subst h4; rw [render_menu_kempower]; simp
    · by_cases h5 : nodeId = menuTokAutel
      · subst h5; rw [render_menu_autel]; simp
      · by_cases h6 : nodeId = menuTokTritium
        · subst h6; rw [render_menu_tritium]; simp
        · cases hlook : treeNodeLookup fault nodeId with
          | none =>
            rw [render_notfound env st mid pack fault nodeId f h ⟨h3, h4, h5, h6⟩ hlook]
            simp
          | some nd =>
            have hlen :=
              (render_found env st mid pack fault nodeId f nd h ⟨h3, h4, h5, h6⟩ hlook).2
            intro hc
            rw [hc] at hlen
            simp at hlen

/-- At the handler's recursion budget, a render of any node id in a
route-safe environment yields a view. -/
theorem render3_ne_nil (env : Env) (hok : routesOk env) (st : ChatState)
    (mid : Option Nat) (pack : Str) (fault : Fault) (nodeId : Str) :
    (renderYamlDecisionNode env renderFuel st mid pack fault nodeId).2 ≠ [] := by
  by_cases hr : nodeId = routeTokOffline ∨ nodeId = routeTokOvertemp
  case neg =>
    push_neg at hr
    exact render_nonroute_ne_nil env 2 st mid pack fault nodeId hr
  case pos =>
    cases hds : dtStartOf (getFaultById env "general_dc".toList nodeId) with
    | none =>
      rw [show renderFuel = 2 + 1 from rfl,
          render_route_miss env st mid pack fault 2 nodeId hr hds]
      simp
    | some s =>
      cases hrf : getFaultById env "general_dc".toList nodeId with
      | none => rw [hrf] at hds; simp [dtStartOf] at hds
      | some rf =>
        rw [hrf] at hds
        obtain ⟨t, htr, hsn, hts⟩ := dtStartOf_some rf s hds
        rw [show renderFuel = 2 + 1 from rfl,
            render_route_unfold env st mid pack fault 2 nodeId rf t s hr hrf htr hsn hts]
        have hsr : notRouteTok s := by
          have hh : routeStartNonRoute
              (dtStartOf (getFaultById env "general_dc".toList nodeId)) = true := by
            rcases hr with h | h
            · rw [h]; exact hok.1
            · rw [h]; exact hok.2
          rw [hrf, hds] at hh
          exact of_decide_eq_true hh
        exact render_nonroute_ne_nil env 1 _ mid "general_dc".toList rf s hsr

/-- C3 (counterexample).  A `dt:bk` callback with no active session state
is dropped without any reply: the engine's goBack operation is not total,
the user is left without a response (`if (!st?.pack || !st?.faultId)
return;`). -/
theorem c3_counterexample :
    (handleCallback sampleEnv ⟨none, emptyMsgStore, false, 0⟩ none 10000
        "dt:bk".toList).2 = [] := by
  decide

/-- C3 (amended).  Outside three silent paths, every engine operation
yields a view in a route-safe environment: `dt:start` and `dt:mn` always
answer; `dt:o:` answers whenever the option index parses as a number and
the active fault exists with a well-formed tree (node map and truthy
start node); `dt:bk` answers whenever there is an active session with
truthy pack and fault id.  The excluded paths — a NaN option index, a
`dt:o:` on a missing fault or malformed tree, and a `dt:bk` without an
active truthy session — return silently with no view. -/
theorem c3_engine_totality (env : Env) (st : ChatState) (mid : Option Nat)
    (data : Str) (hok : routesOk env) :
    (dtStartHandler env st mid).2 ≠ [] ∧
    (dtMenuHandler env st mid).2 ≠ [] ∧
    (∀ (s : DtSession) (fault : Fault) (t : DecisionTree)
        (ns : List (Str × DtNode)) (sn : Str) (i : Int),
      (getActiveDtState st mid).1 = some s →
      truthy s.pack = true → truthy s.faultId = true →
      jsNumberInt ((jsSplit ':' data).getD 2 []) = some i →
      getFaultById env s.pack s.faultId = some fault →
      fault.decision_tree = some t →
      t.nodes = some ns → t.start_node = some sn → truthy sn = true →
      (dtOptionHandler env st mid data).2 ≠ []) ∧
    (∀ (s : DtSession),
      (getActiveDtState st mid).1 = some s →
      truthy s.pack = true → truthy s.faultId = true →
      (dtBackHandler env st mid).2 ≠ []) := by
  refine ⟨?_, ?_, ?_, ?_⟩
  · unfold dtStartHandler
    dsimp only
    cases hA : (getActiveDtState st mid).1 with
    | none => simp
    | some s =>
      dsimp only
      by_cases hp : truthy s.pack = true ∧ truthy s.faultId = true
      · rw [if_neg (not_not_intro hp)]
        cases hf : getFaultById env s.pack s.faultId with
        | none => simp [hf]
        | some fault =>
          simp only [hf]
          cases htr : fault.decision_tree with
          | none => simp [htr]
          | some t =>
            simp only [htr]
            cases hsn : t.start_node with
            | none => simp [hsn]
            | some sn =>
              simp only [hsn]
              by_cases hst : truthy sn = true
              · rw [if_neg (not_not_intro hst)]
                exact render3_ne_nil env hok _ mid s.pack fault sn
              · rw [if_pos hst]
                simp
      · rw [if_pos hp]
        simp
  · unfold dtMenuHandler
    dsimp only
    cases hA : (getActiveDtState st mid).1 with
    | none => simp
    | some s =>
      dsimp only
      by_cases hp : truthy s.pack = true
      · rw [if_neg (not_not_intro hp)]
        split_ifs <;> simp
      · rw [if_pos hp]
        simp
  · intro s fault t ns sn i hA hp hfid hidx hfault htr hns hsn hsnt
    unfold dtOptionHandler
    dsimp only
    rw [hA]
    dsimp only
    rw [if_neg (by simp [hp, hfid]), hidx, hfault]
    simp only [htr, hns, hsn]
    rw [if_neg (by simp [hsnt])]
    cases hnx : (match jsIndex (currentOpts ns (currentNodeIdOf s sn)) i with
                 | some opt => opt.next
                 | none => none) with
    | none => simp [hnx]
    | some nx =>
      simp only [hnx]
      by_cases hnt : truthy nx = true
      · rw [if_neg (not_not_intro hnt)]
        exact render3_ne_nil env hok _ mid s.pack fault nx
      · rw [if_pos hnt]
        simp
  · intro s hA hp hfid
    unfold dtBackHandler
    dsimp only
    rw [hA]
    dsimp only
    rw [if_neg (by simp [hp, hfid])]
    cases hf : getFaultById env s.pack s.faultId with
    | none => simp [hf]
    | some fault =>
      simp only [hf]
      cases hpop : (popDtHistory (getActiveDtState st mid).2).1 with
      | none => simp [hpop]
      | some prevNode =>
        simp only [hpop]
        exact render3_ne_nil env hok _ mid s.pack fault prevNode

theorem c3_engine_totality_witness :
    (dtStartHandler sampleEnv stateN1 none).2 ≠ [] ∧
    (dtMenuHandler sampleEnv stateN1 none).2 ≠ [] ∧
    (dtOptionHandler sampleEnv stateN1 none "dt:o:0".toList).2 ≠ [] ∧
    (dtBackHandler sampleEnv stateN1 none).2 ≠ [] := by
  have h := c3_engine_totality sampleEnv stateN1 none "dt:o:0".toList (by decide)
  exact ⟨h.1, h.2.1,
    h.2.2.1 sessionN1 faultF1 treeF1
      [("n1".toList, nodeN1), ("n2".toList, nodeN2)] "n1".toList 0
      (by decide) (by decide) (by decide) (by decide) (by decide)
      (by decide) (by decide) (by decide) (by decide),
    h.2.2.2 sessionN1 (by decide) (by decide) (by decide)⟩

/- ===================== C9 ===================== -/

/-- Splitting a separator-free string yields that one field. -/
theorem jsSplit_no_sep (sep : Char) (s : Str) (h : sep ∉ s) :
    jsSplit sep s = [s] := by
  induction s with
  | nil => rfl
  | cons c rest ih =>
    have hc : ¬ c = sep := fun hcc => h (hcc ▸ List.mem_cons_self c rest)
    have hr : sep ∉ rest := fun hm => h (List.mem_cons_of_mem c hm)
    unfold jsSplit
    rw [if_neg hc, ih hr]

/-- Splitting past a separator-free head field. -/
theorem jsSplit_append_sep (sep : Char) (p t : Str) (h : sep ∉ p) :
    jsSplit sep (p ++ sep :: t) = p :: jsSplit sep t := by
  induction p with
  | nil =>
    show jsSplit sep ([] ++ sep :: t) = [] :: jsSplit sep t
    rw [List.nil_append]
    simp only [jsSplit]
    rw [if_pos trivial]
  | cons c p' ih =>
    have hc : ¬ c = sep := fun hcc => h (hcc ▸ List.mem_cons_self c p')
    have hp : sep ∉ p' := fun hm => h (List.mem_cons_of_mem c hm)
    show jsSplit sep (c :: (p' ++ sep :: t)) = (c :: p') :: jsSplit sep t
    simp only [jsSplit]
    rw [if_neg hc, ih hp]

/-- A string has a unique decomposition around its first separator. -/
theorem splitAtSep_unique (sep : Char) (a : Str) :
    ∀ (c b d : Str), sep ∉ a → sep ∉ c →
      a ++ sep :: b = c ++ sep :: d → a = c ∧ b = d := by
  induction a with
  | nil =>
    intro c b d _ hc he
    cases c with
    | nil => simpa using he
    | cons y c' =>
      simp only [List.nil_append, List.cons_append, List.cons.injEq] at he
      exact absurd (he.1 ▸ List.mem_cons_self y c') hc
  | cons x a' ih =>
    intro c b d ha hc he
    cases c with
    | nil =>
      simp only [List.cons_append, List.nil_append, List.cons.injEq] at he
      exact absurd (he.1 ▸ List.mem_cons_self x a') ha
    | cons y c' =>
      simp only [List.cons_append, List.cons.injEq] at he
      have ha' : sep ∉ a' := fun hm => ha (List.mem_cons_of_mem x hm)
      have hc' : sep ∉ c' := fun hm => hc (List.mem_cons_of_mem y hm)
      obtain ⟨h1, h2⟩ := ih c' b d ha' hc' he.2
      exact ⟨by rw [he.1, h1], h2⟩

/-- A `:<word>` suffix of a string whose final `:`-field is `id` forces
`id = word` (both pieces separator-free). -/
theorem jsEndsWith_colon_eq (w p id : Str) (hw : ':' ∉ w) (hid : ':' ∉ id)
    (h : jsEndsWith (':' :: w) (p ++ ':' :: id) = true) : id = w := by
  unfold jsEndsWith at h
  rw [List.isSuffixOf_iff_suffix] at h
  obtain ⟨t, ht⟩ := h
  have he : t ++ ':' :: w = p ++ ':' :: id := ht
  have he' : w.reverse ++ ':' :: t.reverse = id.reverse ++ ':' :: p.reverse := by
    have := congrArg List.reverse he
    simpa [List.reverse_append] using this
  have hwrev : ':' ∉ w.reverse := by simpa using hw
  have hidrev : ':' ∉ id.reverse := by simpa using hid
  have := (splitAtSep_unique ':' w.reverse id.reverse t.reverse p.reverse hwrev hidrev he').1
  have h2 := congrArg List.reverse this
  simpa using h2.symm

/-- The `:<word>` suffix test is false when the final field differs. -/
theorem jsEndsWith_colon_ne (w p id : Str) (hw : ':' ∉ w) (hid : ':' ∉ id)
    (hne : id ≠ w) : jsEndsWith (':' :: w) (p ++ ':' :: id) = false := by
  cases h : jsEndsWith (':' :: w) (p ++ ':' :: id) with
  | false => rfl
  | true => exact absurd (jsEndsWith_colon_eq w p id hw hid h) hne

/-- An `includes` hit is an infix occurrence. -/
theorem strIncludes_occurs (n : Str) : ∀ (s : Str),
    strIncludes n s = true → n <:+: s := by
  intro s
  induction s with
  | nil =>
    intro h
    unfold strIncludes at h
    rw [List.isPrefixOf_iff_prefix] at h
    exact h.isInfix
  | cons c rest ih =>
    intro h
    unfold strIncludes at h
    rw [Bool.or_eq_true, List.isPrefixOf_iff_prefix] at h
    rcases h with h | h
    · exact h.isInfix
    · exact List.infix_cons (ih h)

/-- `":fault:"` cannot occur in a string with a single `:`. -/
theorem strIncludes_fault_false (p id : Str) (hp : ':' ∉ p) (hid : ':' ∉ id) :
    strIncludes ":fault:".toList (p ++ ':' :: id) = false := by
  cases h : strIncludes ":fault:".toList (p ++ ':' :: id) with
  | false => rfl
  | true =>
    have hcount := (strIncludes_occurs _ _ h).sublist.count_le ':'
    rw [List.count_append, List.count_cons_self,
        List.count_eq_zero_of_not_mem hp, List.count_eq_zero_of_not_mem hid] at hcount
    simp [List.count] at hcount

/-- `includes` holds across a prepended prefix. -/
theorem strIncludes_append (n pre s : Str) (h : strIncludes n s = true) :
    strIncludes n (pre ++ s) = true := by
  induction pre with
  | nil => simpa using h
  | cons c pre' ih =>
    show strIncludes n (c :: (pre' ++ s)) = true
    unfold strIncludes
    rw [ih]
    simp

/-- A string `includes` itself as a leading substring. -/
theorem strIncludes_self_append (n t : Str) : strIncludes n (n ++ t) = true := by
  cases hs : n ++ t with
  | nil =>
    have : n = [] := by
      cases n with
      | nil => rfl
      | cons c r => simp at hs
    subst this
    rfl
  | cons c r =>
    unfold strIncludes
    rw [← hs, Bool.or_eq_true, List.isPrefixOf_iff_prefix]
    exact Or.inl (List.prefix_append n t)

/-- Joining a single field is the identity. -/
theorem intercalate_single (s x : Str) : List.intercalate s [x] = x := by
  simp [List.intercalate]

/-- The legacy and standard fault-selection handlers agree whenever the
identifier is separator-free: both extract the same id, resolve it in the
same pack, and emit the identical not-found view or fault card. -/
theorem legacy_std_handlers_eq (env : Env) (st : ChatState) (mid : Option Nat)
    (pUp pLo id : Str) (hpUp : ':' ∉ pUp) (hpLo : ':' ∉ pLo) (hid : ':' ∉ id)
    (hlow : jsToLower pLo = pLo) :
    legacyFaultHandler env st mid pLo (pUp ++ ':' :: id)
      = standardFaultHandler env st mid (pLo ++ ':' :: ("fault".toList ++ ':' :: id)) := by
  unfold legacyFaultHandler standardFaultHandler
  rw [jsSplit_append_sep ':' pUp id hpUp,
      jsSplit_append_sep ':' pLo ("fault".toList ++ ':' :: id) hpLo,
      jsSplit_append_sep ':' "fault".toList id (by decide),
      jsSplit_no_sep ':' id hid]
  simp only [List.getD_cons_zero, List.getD_cons_succ, List.drop_succ_cons,
    List.drop_zero]
  rw [hlow, intercalate_single]
  cases hf : getFaultById env pLo id with
  | none => simp [hf, faultNotFoundMsg, cbPackMenu]
  | some fault => simp [hf]

/-- Dispatch of a processed legacy `AUTEL:<id>` callback to the legacy
Autel fault handler. -/
theorem handle_legacy_autel (env : Env) (st : ChatState) (mid : Option Nat)
    (now : Nat) (id : Str)
    (hrl : ¬ (now - st.rlLast < 250))
    (hm : jsEndsWith ":menu".toList ("AUTEL:".toList ++ id) = false)
    (ha : jsEndsWith ":all".toList ("AUTEL:".toList ++ id) = false)
    (hfa : strIncludes ":fault:".toList ("AUTEL:".toList ++ id) = false) :
    handleCallback env st mid now ("AUTEL:".toList ++ id)
      = legacyFaultHandler env { st with rlLast := now } mid "autel".toList
          ("AUTEL:".toList ++ id) := by
  have hm2 := hm; have ha2 := ha; have hf2 := hfa
  simp at hm2 ha2 hf2
  unfold handleCallback
  rw [if_neg hrl]
  simp [hm2, ha2, hf2, jsStartsWith]

/-- Dispatch of a processed standard `autel:fault:<id>` callback to the
standard fault handler. -/
theorem handle_std_autel (env : Env) (st : ChatState) (mid : Option Nat)
    (now : Nat) (id : Str)
    (hrl : ¬ (now - st.rlLast < 250))
    (hm : jsEndsWith ":menu".toList ("autel:fault:".toList ++ id) = false)
    (ha : jsEndsWith ":all".toList ("autel:fault:".toList ++ id) = false)
    (hfa : strIncludes ":fault:".toList ("autel:fault:".toList ++ id) = true) :
    handleCallback env st mid now ("autel:fault:".toList ++ id)
      = standardFaultHandler env { st with rlLast := now } mid
          ("autel:fault:".toList ++ id) := by
  have hm2 := hm; have ha2 := ha; have hf2 := hfa
  simp at hm2 ha2 hf2
  unfold handleCallback
  rw [if_neg hrl]
  simp [hm2, ha2, hf2, jsStartsWith]

/-- Dispatch of a processed legacy `GENERAL_DC:<id>` callback to the legacy
General DC fault handler. -/
theorem handle_legacy_general_dc (env : Env) (st : ChatState) (mid : Option Nat)
    (now : Nat) (id : Str)
    (hrl : ¬ (now - st.rlLast < 250))
    (hm : jsEndsWith ":menu".toList ("GENERAL_DC:".toList ++ id) = false)
    (ha : jsEndsWith ":all".toList ("GENERAL_DC:".toList ++ id) = false)
    (hfa : strIncludes ":fault:".toList ("GENERAL_DC:".toList ++ id) = false) :
    handleCallback env st mid now ("GENERAL_DC:".toList ++ id)
      = legacyFaultHandler env { st with rlLast := now } mid "general_dc".toList
          ("GENERAL_DC:".toList ++ id) := by
  have hm2 := hm; have ha2 := ha; have hf2 := hfa
  simp at hm2 ha2 hf2
  unfold handleCallback
  rw [if_neg hrl]
  simp [hm2, ha2, hf2, jsStartsWith]

/-- Dispatch of a processed standard `general_dc:fault:<id>` callback to the
standard fault handler. -/
theorem handle_std_general_dc (env : Env) (st : ChatState) (mid : Option Nat)
    (now : Nat) (id : Str)
    (hrl : ¬ (now - st.rlLast < 250))
    (hm : jsEndsWith ":menu".toList ("general_dc:fault:".toList ++ id) = false)
    (ha : jsEndsWith ":all".toList ("general_dc:fault:".toList ++ id) = false)
    (hfa : strIncludes ":fault:".toList ("general_dc:fault:".toList ++ id) = true) :
    handleCallback env st mid now ("general_dc:fault:".toList ++ id)
      = standardFaultHandler env { st with rlLast := now } mid
          ("general_dc:fault:".toList ++ id) := by
  have hm2 := hm; have ha2 := ha; have hf2 := hfa
  simp at hm2 ha2 hf2
  unfold handleCallback
  rw [if_neg hrl]
  simp [hm2, ha2, hf2, jsStartsWith]

/-- Dispatch of a processed legacy `KEMPOWER:<id>` callback to the legacy
Kempower fault handler. -/
theorem handle_legacy_kempower (env : Env) (st : ChatState) (mid : Option Nat)
    (now : Nat) (id : Str)
    (hrl : ¬ (now - st.rlLast < 250))
    (hm : jsEndsWith ":menu".toList ("KEMPOWER:".toList ++ id) = false)
    (ha : jsEndsWith ":all".toList ("KEMPOWER:".toList ++ id) = false)
    (hfa : strIncludes ":fault:".toList ("KEMPOWER:".toList ++ id) = false) :
    handleCallback env st mid now ("KEMPOWER:".toList ++ id)
      = legacyFaultHandler env { st with rlLast := now } mid "kempower".toList
          ("KEMPOWER:".toList ++ id) := by
  have hm2 := hm; have ha2 := ha; have hf2 := hfa
  simp at hm2 ha2 hf2
  unfold handleCallback
  rw [if_neg hrl]
  simp [hm2, ha2, hf2, jsStartsWith]

/-- Dispatch of a processed standard `kempower:fault:<id>` callback to the
standard fault handler. -/
theorem handle_std_kempower (env : Env) (st : ChatState) (mid : Option Nat)
    (now : Nat) (id : Str)
    (hrl : ¬ (now - st.rlLast < 250))
    (hm : jsEndsWith ":menu".toList ("kempower:fault:".toList ++ id) = false)
    (ha : jsEndsWith ":all".toList ("kempower:fault:".toList ++ id) = false)
    (hfa : strIncludes ":fault:".toList ("kempower:fault:".toList ++ id) = true) :
    handleCallback env st mid now ("kempower:fault:".toList ++ id)
      = standardFaultHandler env { st with rlLast := now } mid
          ("kempower:fault:".toList ++ id) := by
  have hm2 := hm; have ha2 := ha; have hf2 := hfa
  simp at hm2 ha2 hf2
  unfold handleCallback
  rw [if_neg hrl]
  simp [hm2, ha2, hf2, jsStartsWith]

/-- Dispatch of a processed legacy `TRITIUM:<id>` callback to the legacy
Tritium fault handler. -/
theorem handle_legacy_tritium (env : Env) (st : ChatState) (mid : Option Nat)
    (now : Nat) (id : Str)
    (hrl : ¬ (now - st.rlLast < 250))
    (hm : jsEndsWith ":menu".toList ("TRITIUM:".toList ++ id) = false)
    (ha : jsEndsWith ":all".toList ("TRITIUM:".toList ++ id) = false)
    (hfa : strIncludes ":fault:".toList ("TRITIUM:".toList ++ id) = false) :
    handleCallback env st mid now ("TRITIUM:".toList ++ id)
      = legacyFaultHandler env { st with rlLast := now } mid "tritium".toList
          ("TRITIUM:".toList ++ id) := by
  have hm2 := hm; have ha2 := ha; have hf2 := hfa
  simp at hm2 ha2 hf2
  unfold handleCallback
  rw [if_neg hrl]
  simp [hm2, ha2, hf2, jsStartsWith]

/-- Dispatch of a processed standard `tritium:fault:<id>` callback to the
standard fault handler. -/
theorem handle_std_tritium (env : Env) (st : ChatState) (mid : Option Nat)
    (now : Nat) (id : Str)
    (hrl : ¬ (now - st.rlLast < 250))
    (hm : jsEndsWith ":menu".toList ("tritium:fault:".toList ++ id) = false)
    (ha : jsEndsWith ":all".toList ("tritium:fault:".toList ++ id) = false)
    (hfa : strIncludes ":fault:".toList ("tritium:fault:".toList ++ id) = true) :
    handleCallback env st mid now ("tritium:fault:".toList ++ id)
      = standardFaultHandler env { st with rlLast := now } mid
          ("tritium:fault:".toList ++ id) := by
  have hm2 := hm; have ha2 := ha; have hf2 := hfa
  simp at hm2 ha2 hf2
  unfold handleCallback
  rw [if_neg hrl]
  simp [hm2, ha2, hf2, jsStartsWith]

/-- Full legacy/standard callback equivalence for the general_dc pack on
separator-free ids. -/
theorem legacy_equiv_general_dc (env : Env) (st : ChatState) (mid : Option Nat)
    (now : Nat) (id : Str) (hid : ':' ∉ id) :
    handleCallback env st mid now ("GENERAL_DC:".toList ++ id)
      = handleCallback env st mid now ("general_dc:fault:".toList ++ id) := by
  by_cases hrl : now - st.rlLast < 250
  · unfold handleCallback
    rw [if_pos hrl, if_pos hrl]
  · by_cases hm : id = "menu".toList
    · subst hm
      unfold handleCallback
      rw [if_neg hrl, if_neg hrl]
      rfl
    · by_cases ha : id = "all".toList
      · subst ha
        unfold handleCallback
        rw [if_neg hrl, if_neg hrl]
        rfl
      · have hmL : jsEndsWith ":menu".toList ("GENERAL_DC:".toList ++ id) = false :=
          jsEndsWith_colon_ne "menu".toList "GENERAL_DC".toList id (by decide) hid hm
        have haL : jsEndsWith ":all".toList ("GENERAL_DC:".toList ++ id) = false :=
          jsEndsWith_colon_ne "all".toList "GENERAL_DC".toList id (by decide) hid ha
        have hfL : strIncludes ":fault:".toList ("GENERAL_DC:".toList ++ id) = false :=
          strIncludes_fault_false "GENERAL_DC".toList id (by decide) hid
        have hmS : jsEndsWith ":menu".toList ("general_dc:fault:".toList ++ id) = false :=
          jsEndsWith_colon_ne "menu".toList "general_dc:fault".toList id (by decide) hid hm
        have haS : jsEndsWith ":all".toList ("general_dc:fault:".toList ++ id) = false :=
          jsEndsWith_colon_ne "all".toList "general_dc:fault".toList id (by decide) hid ha
        have hfS : strIncludes ":fault:".toList ("general_dc:fault:".toList ++ id) = true :=
          strIncludes_append ":fault:".toList "general_dc".toList (":fault:".toList ++ id)
            (strIncludes_self_append ":fault:".toList id)
        rw [handle_legacy_general_dc env st mid now id hrl hmL haL hfL,
            handle_std_general_dc env st mid now id hrl hmS haS hfS]
        exact legacy_std_handlers_eq env { st with rlLast := now } mid
          "GENERAL_DC".toList "general_dc".toList id (by decide) (by decide) hid (by decide)

/-- Full legacy/standard callback equivalence for the autel pack on
separator-free ids. -/
theorem legacy_equiv_autel (env : Env) (st : ChatState) (mid : Option Nat)
    (now : Nat) (id : Str) (hid : ':' ∉ id) :
    handleCallback env st mid now ("AUTEL:".toList ++ id)
      = handleCallback env st mid now ("autel:fault:".toList ++ id) := by
  by_cases hrl : now - st.rlLast < 250
  · unfold handleCallback
    rw [if_pos hrl, if_pos hrl]
  · by_cases hm : id = "menu".toList
    · subst hm
      unfold handleCallback
      rw [if_neg hrl, if_neg hrl]
      rfl
    · by_cases ha : id = "all".toList
      · subst ha
        unfold handleCallback
        rw [if_neg hrl, if_neg hrl]
        rfl
      · have hmL : jsEndsWith ":menu".toList ("AUTEL:".toList ++ id) = false :=
          jsEndsWith_colon_ne "menu".toList "AUTEL".toList id (by decide) hid hm
        have haL : jsEndsWith ":all".toList ("AUTEL:".toList ++ id) = false :=
          jsEndsWith_colon_ne "all".toList "AUTEL".toList id (by decide) hid ha
        have hfL : strIncludes ":fault:".toList ("AUTEL:".toList ++ id) = false :=
          strIncludes_fault_false "AUTEL".toList id (by decide) hid
        have hmS : jsEndsWith ":menu".toList ("autel:fault:".toList ++ id) = false :=
          jsEndsWith_colon_ne "menu".toList "autel:fault".toList id (by decide) hid hm
        have haS : jsEndsWith ":all".toList ("autel:fault:".toList ++ id) = false :=
          jsEndsWith_colon_ne "all".toList "autel:fault".toList id (by decide) hid ha
        have hfS : strIncludes ":fault:".toList ("autel:fault:".toList ++ id) = true :=
          strIncludes_append ":fault:".toList "autel".toList (":fault:".toList ++ id)
            (strIncludes_self_append ":fault:".toList id)
        rw [handle_legacy_autel env st mid now id hrl hmL haL hfL,
            handle_std_autel env st mid now id hrl hmS haS hfS]
        exact legacy_std_handlers_eq env { st with rlLast := now } mid
          "AUTEL".toList "autel".toList id (by decide) (by decide) hid (by decide)

/-- Full legacy/standard callback equivalence for the kempower pack on
separator-free ids. -/
theorem legacy_equiv_kempower (env : Env) (st : ChatState) (mid : Option Nat)
    (now : Nat) (id : Str) (hid : ':' ∉ id) :
    handleCallback env st mid now ("KEMPOWER:".toList ++ id)
      = handleCallback env st mid now ("kempower:fault:".toList ++ id) := by
  by_cases hrl : now - st.rlLast < 250
  · unfold handleCallback
    rw [if_pos hrl, if_pos hrl]
  · by_cases hm : id = "menu".toList
    · subst hm
      unfold handleCallback
      rw [if_neg hrl, if_neg hrl]
      rfl
    · by_cases ha : id = "all".toList
      · subst ha
        unfold handleCallback
        rw [if_neg hrl, if_neg hrl]
        rfl
      · have hmL : jsEndsWith ":menu".toList ("KEMPOWER:".toList ++ id) = false :=
          jsEndsWith_colon_ne "menu".toList "KEMPOWER".toList id (by decide) hid hm
        have haL : jsEndsWith ":all".toList ("KEMPOWER:".toList ++ id) = false :=
          jsEndsWith_colon_ne "all".toList "KEMPOWER".toList id (by decide) hid ha
        have hfL : strIncludes ":fault:".toList ("KEMPOWER:".toList ++ id) = false :=
          strIncludes_fault_false "KEMPOWER".toList id (by decide) hid
        have hmS : jsEndsWith ":menu".toList ("kempower:fault:".toList ++ id) = false :=
          jsEndsWith_colon_ne "menu".toList "kempower:fault".toList id (by decide) hid hm
        have haS : jsEndsWith ":all".toList ("kempower:fault:".toList ++ id) = false :=
          jsEndsWith_colon_ne "all".toList "kempower:fault".toList id (by decide) hid ha
        have hfS : strIncludes ":fault:".toList ("kempower:fault:".toList ++ id) = true :=
          strIncludes_append ":fault:".toList "kempower".toList (":fault:".toList ++ id)
            (strIncludes_self_append ":fault:".toList id)
        rw [handle_legacy_kempower env st mid now id hrl hmL haL hfL,
            handle_std_kempower env st mid now id hrl hmS haS hfS]
        exact legacy_std_handlers_eq env { st with rlLast := now } mid
          "KEMPOWER".toList "kempower".toList id (by decide) (by decide) hid (by decide)

/-- Full legacy/standard callback equivalence for the tritium pack on
separator-free ids. -/
theorem legacy_equiv_tritium (env : Env) (st : ChatState) (mid : Option Nat)
    (now : Nat) (id : Str) (hid : ':' ∉ id) :
    handleCallback env st mid now ("TRITIUM:".toList ++ id)
      = handleCallback env st mid now ("tritium:fault:".toList ++ id) := by
  by_cases hrl : now - st.rlLast < 250
  · unfold handleCallback
    rw [if_pos hrl, if_pos hrl]
  · by_cases hm : id = "menu".toList
    · subst hm
      unfold handleCallback
      rw [if_neg hrl, if_neg hrl]
      rfl
    · by_cases ha : id = "all".toList
      · subst ha
        unfold handleCallback
        rw [if_neg hrl, if_neg hrl]
        rfl
      · have hmL : jsEndsWith ":menu".toList ("TRITIUM:".toList ++ id) = false :=
          jsEndsWith_colon_ne "menu".toList "TRITIUM".toList id (by decide) hid hm
        have haL : jsEndsWith ":all".toList ("TRITIUM:".toList ++ id) = false :=
          jsEndsWith_colon_ne "all".toList "TRITIUM".toList id (by decide) hid ha
        have hfL : strIncludes ":fault:".toList ("TRITIUM:".toList ++ id) = false :=
          strIncludes_fault_false "TRITIUM".toList id (by decide) hid
        have hmS : jsEndsWith ":menu".toList ("tritium:fault:".toList ++ id) = false :=
          jsEndsWith_colon_ne "menu".toList "tritium:fault".toList id (by decide) hid hm
        have haS : jsEndsWith ":all".toList ("tritium:fault:".toList ++ id) = false :=
          jsEndsWith_colon_ne "all".toList "tritium:fault".toList id (by decide) hid ha
        have hfS : strIncludes ":fault:".toList ("tritium:fault:".toList ++ id) = true :=
          strIncludes_append ":fault:".toList "tritium".toList (":fault:".toList ++ id)
            (strIncludes_self_append ":fault:".toList id)
        rw [handle_legacy_tritium env st mid now id hrl hmL haL hfL,
            handle_std_tritium env st mid now id hrl hmS haS hfS]
        exact legacy_std_handlers_eq env { st with rlLast := now } mid
          "TRITIUM".toList "tritium".toList id (by decide) (by decide) hid (by decide)

/-- A fault whose id contains the separator, on which the two callback
encodings disagree. -/
def faultAB : Fault := ⟨"a:b".toList, "AB".toList, none, none, none⟩

/-- An environment whose Autel pack carries only that fault. -/
def envC9 : Env := ⟨[], [faultAB], [], [], fun _ => []⟩

/-- C9 (counterexample).  For the fault id `a:b` the encodings diverge:
the legacy `AUTEL:a:b` truncates the id at the first `:` (`split(":")[1]`
is `a`) and reports "Fault not found.", while the standard
`autel:fault:a:b` rejoins the remaining fields (`parts.slice(2).join(":")`
is `a:b`), finds the fault and renders its card. -/
theorem c9_counterexample :
    (handleCallback envC9 ⟨none, emptyMsgStore, false, 0⟩ none 10000
        "AUTEL:a:b".toList).2
      ≠ (handleCallback envC9 ⟨none, emptyMsgStore, false, 0⟩ none 10000
        "autel:fault:a:b".toList).2 := by
  decide

/-- C9 (amended).  For every pack of the closed manufacturer enumeration
and every fault identifier free of the `:` separator, the legacy
`<PACK_UPPER>:<id>` callback and the standard `<pack>:fault:<id>`
callback are handled identically — same rate-limit behaviour, same state
transition and same reply (the same fault card, or the same
"Fault not found." view, or for the reserved ids `menu` and `all` the
same pack menu). -/
theorem c9_legacy_equiv (env : Env) (st : ChatState) (mid : Option Nat)
    (now : Nat) (id : Str) (hid : ':' ∉ id) :
    (handleCallback env st mid now ("GENERAL_DC:".toList ++ id)
       = handleCallback env st mid now ("general_dc:fault:".toList ++ id)) ∧
    (handleCallback env st mid now ("AUTEL:".toList ++ id)
       = handleCallback env st mid now ("autel:fault:".toList ++ id)) ∧
    (handleCallback env st mid now ("KEMPOWER:".toList ++ id)
       = handleCallback env st mid now ("kempower:fault:".toList ++ id)) ∧
    (handleCallback env st mid now ("TRITIUM:".toList ++ id)
       = handleCallback env st mid now ("tritium:fault:".toList ++ id)) :=
  ⟨legacy_equiv_general_dc env st mid now id hid,
   legacy_equiv_autel env st mid now id hid,
   legacy_equiv_kempower env st mid now id hid,
   legacy_equiv_tritium env st mid now id hid⟩

theorem c9_legacy_equiv_witness :
    handleCallback sampleEnv stateN1 none 10000 ("AUTEL:".toList ++ "F1".toList)
      = handleCallback sampleEnv stateN1 none 10000
          ("autel:fault:".toList ++ "F1".toList) :=
  (c9_legacy_equiv sampleEnv stateN1 none 10000 "F1".toList (by decide)).2.1
